import Mathlib

/-!
# Verification of the Rune VM (`src/src/vm/vm.c`)

A shallow embedding of the Rune bytecode loader and register-based
interpreter.  Machine integers are modelled as `Nat` values carrying the
unsigned bit pattern (`% 2^32` / `% 2^64` where C wraps); C values of type
`rune_val_t` become the tagged `RuneVal`; fallible operations return
explicit result types.  Floating-point *arithmetic* delegates to host
IEEE-754 hardware in the C source and is not modelled: the interpreter
embedding returns an explicit `CUndef.hostFloat` marker for those opcodes
(bit-exact float moves — `LDF*`, `LOADF*`, `STOREF*`, `MOV` — are
modelled, as raw bit patterns).  Genuine C undefined behaviour reachable
in the source (out-of-range function index in `OP_CALL`, `arg_buf`
overflow in `OP_ARG`, signed-division overflow in `OP_DIV32`/`OP_DIV64`/
`OP_REM32`/`OP_REM64`, the `memset` past the allocation in `OP_MEM_GROW`)
is likewise made explicit with `CUndef` markers, so the embedding is
total.

Constants from `include/rune_bytecode.h` and `include/rune.h` (not under
`src/`) are modelled from the spec where their values matter; each such
definition carries a `Modelled from the spec:` doc comment.
-/

set_option maxRecDepth 100000

namespace Rune

/-- Error enum `rune_err_t` (values of the enum constants are irrelevant
to every claim; only the constructors are compared). -/
inductive RuneErr where
  | OK | BADMODULE | BADMAGIC | VERSION | OOM | BOUNDS | DIVZERO
  | TYPE | NOEXPORT | NOIMPORT | STACKOVERFLOW | TRAP | FUEL
  | BADOPCODE | HOSTERR
deriving DecidableEq, Repr

/-- A `rune_val_t`: tagged union of the value kinds.  Integer payloads are
the unsigned bit pattern (`vI32 v` with `v < 2^32`, `vI64 v` with
`v < 2^64`); float payloads are the raw IEEE bit pattern. -/
inductive RuneVal where
  | vI32 (bits : Nat)
  | vI64 (bits : Nat)
  | vF32 (bits : Nat)
  | vF64 (bits : Nat)
  | vBool (b : Bool)
  | vVoid
deriving DecidableEq, Repr

/-- A zero-initialised `rune_val_t` (register windows are `memset` to 0 on
entry).  Modelled from the spec: the numeric value of enum tag 0 of
`rune_type_t` is in the missing header; a zeroed value reads 0 through
every union field, which the i32-zero constructor reproduces for the
accessors below. -/
def zeroVal : RuneVal := .vI32 0

/-- Reading `.as.i32` of a union value: the low 32 bits of the stored
payload.  For `vBool`/`vVoid` the C read includes uninitialised padding
bytes; the model takes the 0/1 payload (resp. 0), the only place the
claims never depend on. -/
def RuneVal.asU32 : RuneVal → Nat
  | .vI32 b => b % 4294967296
  | .vI64 b => b % 4294967296
  | .vF32 b => b % 4294967296
  | .vF64 b => b % 4294967296
  | .vBool b => if b then 1 else 0
  | .vVoid => 0

/-- Reading `.as.i64`: the stored payload, zero-extended where the C union
read would see uninitialised upper bytes (noted in the file header). -/
def RuneVal.asU64 : RuneVal → Nat
  | .vI32 b => b % 18446744073709551616
  | .vI64 b => b % 18446744073709551616
  | .vF32 b => b % 18446744073709551616
  | .vF64 b => b % 18446744073709551616
  | .vBool b => if b then 1 else 0
  | .vVoid => 0

/-- Reading `.as.b` (a one-byte `bool`): nonzero low byte for non-bool
payloads (union pun; only `OP_BOOL_TO_I32` reads it from arbitrary
values). -/
def RuneVal.asB : RuneVal → Bool
  | .vBool b => b
  | v => decide (v.asU32 % 256 ≠ 0)

/-- Signed reading of a 32-bit pattern (two's complement). -/
def toS32 (u : Nat) : Int :=
  if u % 4294967296 < 2147483648 then (u % 4294967296 : Int)
  else (u % 4294967296 : Int) - 4294967296

/-- Signed reading of a 64-bit pattern (two's complement). -/
def toS64 (u : Nat) : Int :=
  if u % 18446744073709551616 < 9223372036854775808 then (u % 18446744073709551616 : Int)
  else (u % 18446744073709551616 : Int) - 18446744073709551616

/-- The 32-bit pattern of an integer (two's complement wrap). -/
def toU32 (i : Int) : Nat := (i.emod 4294967296).toNat

/-- The 64-bit pattern of an integer (two's complement wrap). -/
def toU64 (i : Int) : Nat := (i.emod 18446744073709551616).toNat

/-- Sign-extend a `w`-bit pattern to a 32-bit pattern. -/
def sext32 (w v : Nat) : Nat :=
  let v := v % 2 ^ w
  if v < 2 ^ (w - 1) then v else v + (4294967296 - 2 ^ w)

/-- Point update of a register/argument window. -/
def upd (f : Nat → RuneVal) (i : Nat) (v : RuneVal) : Nat → RuneVal :=
  fun j => if j = i then v else f j

/-- Point update of a byte memory. -/
def updN (f : Nat → Nat) (i v : Nat) : Nat → Nat :=
  fun j => if j = i then v else f j

/-- Little-endian read of `n` bytes at `off` (each byte taken `% 256`, the
C `uint8_t` invariant). -/
def readLE (mem : Nat → Nat) (off : Nat) : Nat → Nat
  | 0 => 0
  | n + 1 => mem off % 256 + 256 * readLE mem (off + 1) n

/-- Little-endian store of the low `n` bytes of `v` at `off` (the
`memcpy` of a fixed-width integer on the little-endian host the spec
fixes). -/
def storeLE (mem : Nat → Nat) (off v : Nat) : Nat → (Nat → Nat)
  | 0 => mem
  | n + 1 => storeLE (updN mem off (v % 256)) (off + 1) (v / 256) n

/-- `memmove` inside linear memory: bytes `[pdst, pdst+n)` become the
*original* bytes `[psrc, psrc+n)`. -/
def memCopy (mem : Nat → Nat) (pdst psrc n : Nat) : Nat → Nat :=
  fun i => if pdst ≤ i ∧ i < pdst + n then mem (psrc + (i - pdst)) else mem i

/-- `memset` of `n` bytes to `b` starting at `pdst`. -/
def memFill (mem : Nat → Nat) (pdst b n : Nat) : Nat → Nat :=
  fun i => if pdst ≤ i ∧ i < pdst + n then b % 256 else mem i

/-- Count of leading zeros of a 32-bit pattern (`__builtin_clz`; the
interpreter guards the zero case itself). -/
def clz32 (u : Nat) : Nat := if u = 0 then 32 else 31 - Nat.log2 u

/-- Count of trailing zeros, bounded by the fuel (used with fuel 32). -/
def ctzAux : Nat → Nat → Nat
  | 0, _ => 0
  | f + 1, n => if n % 2 = 1 then 0 else 1 + ctzAux f (n / 2)

/-- Population count of the low 32 bits. -/
def popcnt32 (u : Nat) : Nat := (List.range 32).countP (fun i => u.testBit i)

/-! ## Constants

`RUNE_PAGE_SIZE`, `RUNE_MAX_PARAMS`, `RUNE_MAX_REGS`, `RUNE_CALL_DEPTH`
and the caps live in the headers absent from `src/`; their values are
fixed by the spec (§3, §4.3, §6). -/

/-- Modelled from the spec: a page is 65 536 bytes (glossary, §3). -/
def PAGE_SIZE : Nat := 65536

/-- Modelled from the spec: at most 16 parameters / argument-staging
slots (§3 "Function type", "argument staging buffer (16 slots)"). -/
def MAX_PARAMS : Nat := 16

/-- Modelled from the spec: 256 register slots per frame (§3, glossary). -/
def MAX_REGS : Nat := 256

/-- Modelled from the spec: default call-stack depth 512
(`RUNE_CALL_DEPTH`, §4.3/§6). -/
def CALL_DEPTH : Nat := 512

/-- Modelled from the spec: the loader's function cap (`RUNE_MAX_FUNCS`;
value not in `src/` — the assembler's own cap is 4096, adopted here; no
claim depends on the value). -/
def MAX_FUNCS : Nat := 4096

/-- Modelled from the spec: the loader's global cap (`RUNE_MAX_GLOBALS`;
value not in `src/` — the assembler's own cap is 512, adopted here; no
claim depends on the value). -/
def MAX_GLOBALS : Nat := 512

/-! ## Opcodes -/

/-- The opcode set of the interpreter switch in `vm_exec`, in source
order. -/
inductive Opcode where
  | NOP | TRAP | RET | JMP | JZ | JNZ | JLT | JLE
  | CALL | CALL_HOST | ARG
  | LDI32 | LDI64 | LDF32 | LDF64 | LDTRUE | LDFALSE
  | LDGLOBAL | STGLOBAL | MOV
  | ADD32 | SUB32 | MUL32 | DIV32 | DIVU32 | REM32 | REMU32 | NEG32
  | AND32 | OR32 | XOR32 | SHL32 | SHR32 | SHRU32 | NOT32
  | CLZ32 | CTZ32 | POPCNT32
  | ADD64 | SUB64 | MUL64 | DIV64 | DIVU64 | REM64
  | AND64 | OR64 | XOR64 | SHL64 | SHR64 | NOT64 | NEG64
  | FADD32 | FSUB32 | FMUL32 | FDIV32 | FABS32 | FNEG32 | FSQRT32
  | FMIN32 | FMAX32 | FFLOOR32 | FCEIL32 | FROUND32
  | FADD64 | FSUB64 | FMUL64 | FDIV64 | FABS64 | FNEG64 | FSQRT64
  | FMIN64 | FMAX64 | FFLOOR64 | FCEIL64 | FROUND64
  | EQ32 | NE32 | LT32 | LE32 | GT32 | GE32 | LTU32 | LEU32
  | EQ64 | NE64 | LT64 | LE64
  | FEQ32 | FLT32 | FEQ64 | FLT64
  | I32_TO_I64 | I64_TO_I32 | U32_TO_I64
  | I32_TO_F32 | I32_TO_F64 | F32_TO_I32 | F64_TO_I32
  | F32_TO_F64 | F64_TO_F32 | I64_TO_F64 | F64_TO_I64 | BOOL_TO_I32
  | LOAD8 | LOAD8S | LOAD16 | LOAD16S | LOAD32 | LOAD64
  | LOADF32 | LOADF64
  | STORE8 | STORE16 | STORE32 | STORE64 | STOREF32 | STOREF64
  | MEM_SIZE | MEM_GROW | MEM_COPY | MEM_FILL
deriving DecidableEq, Repr, BEq

open Opcode in
/-- Modelled from the spec: the numeric opcode assignments live in
`include/rune_bytecode.h` (not under `src/`); every opcode gets a
distinct code (its position here) and all other byte values decode to
`none`, which the interpreter turns into `BADOPCODE`.  No claim depends
on the particular numbers. -/
def opcodeList : List Opcode :=
  [NOP, TRAP, RET, JMP, JZ, JNZ, JLT, JLE,
   CALL, CALL_HOST, ARG,
   LDI32, LDI64, LDF32, LDF64, LDTRUE, LDFALSE,
   LDGLOBAL, STGLOBAL, MOV,
   ADD32, SUB32, MUL32, DIV32, DIVU32, REM32, REMU32, NEG32,
   AND32, OR32, XOR32, SHL32, SHR32, SHRU32, NOT32,
   CLZ32, CTZ32, POPCNT32,
   ADD64, SUB64, MUL64, DIV64, DIVU64, REM64,
   AND64, OR64, XOR64, SHL64, SHR64, NOT64, NEG64,
   FADD32, FSUB32, FMUL32, FDIV32, FABS32, FNEG32, FSQRT32,
   FMIN32, FMAX32, FFLOOR32, FCEIL32, FROUND32,
   FADD64, FSUB64, FMUL64, FDIV64, FABS64, FNEG64, FSQRT64,
   FMIN64, FMAX64, FFLOOR64, FCEIL64, FROUND64,
   EQ32, NE32, LT32, LE32, GT32, GE32, LTU32, LEU32,
   EQ64, NE64, LT64, LE64,
   FEQ32, FLT32, FEQ64, FLT64,
   I32_TO_I64, I64_TO_I32, U32_TO_I64,
   I32_TO_F32, I32_TO_F64, F32_TO_I32, F64_TO_I32,
   F32_TO_F64, F64_TO_F32, I64_TO_F64, F64_TO_I64, BOOL_TO_I32,
   LOAD8, LOAD8S, LOAD16, LOAD16S, LOAD32, LOAD64,
   LOADF32, LOADF64,
   STORE8, STORE16, STORE32, STORE64, STOREF32, STOREF64,
   MEM_SIZE, MEM_GROW, MEM_COPY, MEM_FILL]

/-- Decode an opcode byte. -/
def opcodeOfNat (n : Nat) : Option Opcode := opcodeList.get? n

/-- Encode an opcode (for building concrete programs). -/
def opNum (op : Opcode) : Nat := opcodeList.indexOf op

/-- Build the 32-bit instruction word `(op, dst, s1, s2)`, little-endian
byte order (spec §4.2; `RUNE_INSTR` in the missing header). -/
def instrWord (op : Opcode) (dst s1 s2 : Nat) : Nat :=
  opNum op + dst % 256 * 256 + s1 % 256 * 65536 + s2 % 256 * 16777216

/-! ## Module -/

/-- `rune_func_type_t`: parameter/return type bytes. -/
structure RuneFuncType where
  paramTypes : List Nat
  returnTypes : List Nat
deriving DecidableEq, Repr

/-- `rune_import_t`.  Names are the raw bytes of the NUL-terminated C
string (comparisons go through `cstrEq` below, the `strcmp` model). -/
structure RuneImport where
  module : List Nat
  name : List Nat
  typeIdx : Nat
deriving DecidableEq, Repr

/-- `rune_func_t`.  `code` is the raw byte slice of the body (the
interpreter reads it as `code_size / 4` little-endian words). -/
structure RuneFunc where
  typeIdx : Nat
  regCount : Nat
  localCount : Nat
  code : List Nat
  isImport : Bool
  importIdx : Nat
deriving DecidableEq, Repr

/-- `rune_global_t`. -/
structure RuneGlobal where
  type : Nat
  mutFlag : Bool
  value : RuneVal
deriving DecidableEq, Repr

/-- Modelled from the spec: the numeric values of `rune_export_kind_t`
are in the missing header; the three kinds get distinct codes (no claim
depends on the numbers). -/
def EXPORT_FUNC : Nat := 0

/-- Modelled from the spec: export kind MEMORY. -/
def EXPORT_MEMORY : Nat := 1

/-- Modelled from the spec: export kind GLOBAL. -/
def EXPORT_GLOBAL : Nat := 2

/-- `rune_export_t` (`kind` kept as the raw byte the loader read). -/
structure RuneExport where
  kind : Nat
  idx : Nat
  name : List Nat
deriving DecidableEq, Repr

/-- A data segment (offset, bytes). -/
structure RuneDataSeg where
  offset : Nat
  data : List Nat
deriving DecidableEq, Repr

/-- `struct rune_module` (the parsed, owning representation; the raw byte
buffer itself is not needed once the slices are lists). -/
structure RuneModule where
  types : List RuneFuncType
  imports : List RuneImport
  funcs : List RuneFunc
  globals : List RuneGlobal
  exports : List RuneExport
  memInitialPages : Nat
  memMaxPages : Nat
  hasMemory : Bool
  dataSegs : List RuneDataSeg
  initFunc : Int
deriving Repr

/-- `strcmp` equality of two NUL-terminated C strings held as byte
lists: bytes up to the first NUL. -/
def cstrEq (a b : List Nat) : Bool :=
  a.takeWhile (fun c => c ≠ 0) = b.takeWhile (fun c => c ≠ 0)

/-! ## VM -/

/-- `rune_config_t`. -/
structure RuneConfig where
  stackSize : Nat
  memoryLimit : Nat
  fuelLimit : Nat
deriving DecidableEq, Repr

/-- `rune_config_default()`. -/
def configDefault : RuneConfig :=
  { stackSize := CALL_DEPTH, memoryLimit := 64 * 1024 * 1024, fuelLimit := 0 }

/-- A host callback result: `(error code, value written to *ret)`.  The C
callback also receives the VM handle and may inspect it; callbacks that
mutate the VM re-entrantly are outside this model (noted in `spec.md`
§5 as a host obligation). -/
def HostFn : Type := List RuneVal → RuneErr × RuneVal

/-- `rune_host_entry_t`. -/
structure HostEntry where
  module : List Nat
  name : List Nat
  fn : HostFn

/-- `struct rune_vm`, minus the frame array bodies (register windows are
zeroed on every entry, so only `frame_count` is observable) and the
diagnostic `error_buf` (a formatted string, not load-bearing for any
claim). -/
structure VMState where
  mod : RuneModule
  cfg : RuneConfig
  hostFns : List HostEntry
  memAllocated : Bool
  memory : Nat → Nat
  memoryPages : Nat
  memoryMax : Nat
  globals : List RuneVal
  frameCount : Nat
  argBuf : Nat → RuneVal
  argCount : Nat
  fuelUsed : Nat
  initialized : Bool

/-- The current-bound `MEM_CHECK` condition: memory present and
`off + sz ≤ memory_pages * PAGE_SIZE` (the C comparison is exact: both
sides are computed in `uint64_t` and cannot overflow). -/
def memCheck (vm : VMState) (off sz : Nat) : Bool :=
  vm.memAllocated && decide (off + sz ≤ vm.memoryPages * PAGE_SIZE)

/-! ## Interpreter core -/

/-- C undefined behaviour (or host-delegated semantics) reachable in
`vm_exec`, made explicit so the embedding is total.  See the file
header. -/
inductive CUndef where
  | funcIdxOOB (fi : Nat)
  | argSlotOOB (slot : Nat)
  | argCountOOB (n : Nat)
  | sdivOverflow
  | growMemsetOOB
  | dataSegMemcpyOOB
  | codeOOB
  | hostFloat (op : Opcode)
deriving DecidableEq, Repr

/-- The action one dispatched instruction takes.  `done` is the C
`goto done` path (the frame is popped before returning); `direct` is a
bare `return` from inside the loop body — the `MEM_CHECK` macro — which
*skips* the frame pop at `done:`. -/
inductive StepAct where
  | next (vm : VMState) (regs : Nat → RuneVal) (pc : Nat)
  | done (e : RuneErr) (ret : Option RuneVal) (vm : VMState)
  | direct (e : RuneErr) (vm : VMState)
  | call (vm : VMState) (regs : Nat → RuneVal) (pc : Nat) (dst fi : Nat)
         (args : List RuneVal)
  | undef (u : CUndef)

/-- Result of `vm_exec` / the public calls: error code, the final value
of the caller's `ret_val` cell (initialised to void by every caller),
and the VM state; or an explicit undefined-behaviour marker; or `spin`
when the embedding's step budget ran out (an artefact of the shallow
embedding, never a C outcome). -/
inductive ExecOut where
  | norm (e : RuneErr) (ret : RuneVal) (vm : VMState)
  | undef (u : CUndef)
  | spin

/-- `vm_resolve_host`: first registered entry matching the import's
`(module, name)` pair. -/
def vmResolveHost (vm : VMState) (importIdx : Nat) : Option HostEntry :=
  match vm.mod.imports.get? importIdx with
  | none => none
  | some imp =>
    vm.hostFns.find? (fun e => cstrEq e.module imp.module && cstrEq e.name imp.name)

/-- Shared body of the `OP_LOAD*` cases: effective address
`R[s1] + imm32` (uint32 wrap), `MEM_CHECK`, then an `sz`-byte
little-endian read converted by `conv`. -/
def execLoad (vm : VMState) (regs : Nat → RuneVal) (code : List Nat)
    (pc dst s1 sz : Nat) (conv : Nat → RuneVal) : StepAct :=
  match code.get? pc with
  | none => .undef .codeOOB
  | some w =>
    let off := ((regs s1).asU32 + w % 4294967296) % 4294967296
    if memCheck vm off sz then
      .next vm (upd regs dst (conv (readLE vm.memory off sz))) (pc + 1)
    else .direct .BOUNDS vm

/-- Shared body of the `OP_STORE*` cases: effective address, `MEM_CHECK`,
then an `sz`-byte little-endian write of `val` (the value register `dst`
read through the union field the opcode dictates). -/
def execStore (vm : VMState) (regs : Nat → RuneVal) (code : List Nat)
    (pc s1 sz val : Nat) : StepAct :=
  match code.get? pc with
  | none => .undef .codeOOB
  | some w =>
    let off := ((regs s1).asU32 + w % 4294967296) % 4294967296
    if memCheck vm off sz then
      .next {vm with memory := storeLE vm.memory off val sz} regs (pc + 1)
    else .direct .BOUNDS vm

open RuneVal in
/-- One dispatched instruction of `vm_exec` (the body of the big
`switch`).  `pc` already points at the word after the instruction word;
immediates are pulled from `code` exactly as `read_imm32`/`read_imm64`
do.  Additive/multiplicative/shift/negate integer ops are modelled with
two's-complement wrapping (the spec's stated semantics, §3); signed
division overflow is kept as explicit undefined behaviour because it
faults at run time on mainstream targets. -/
def execOp (o : Opcode) (vm : VMState) (regs : Nat → RuneVal) (code : List Nat)
    (pc dst s1 s2 : Nat) : StepAct :=
  match o with
  | .NOP => .next vm regs pc
  | .TRAP => .done .TRAP none vm
  | .RET => .done .OK (some (regs 0)) vm
  | .JMP =>
    match code.get? pc with
    | none => .undef .codeOOB
    | some w => .next vm regs (toU32 ((pc : Int) + 1 + toS32 w))
  | .JZ =>
    match code.get? pc with
    | none => .undef .codeOOB
    | some w =>
      let zero := match regs s1 with
        | .vBool b => !b
        | .vI32 v => decide (v % 4294967296 = 0)
        | .vI64 v => decide (v % 18446744073709551616 = 0)
        | _ => false
      if zero then .next vm regs (toU32 ((pc : Int) + 1 + toS32 w))
      else .next vm regs (pc + 1)
  | .JNZ =>
    match code.get? pc with
    | none => .undef .codeOOB
    | some w =>
      let zero := match regs s1 with
        | .vBool b => !b
        | .vI32 v => decide (v % 4294967296 = 0)
        | .vI64 v => decide (v % 18446744073709551616 = 0)
        | _ => false
      if zero then .next vm regs (pc + 1)
      else .next vm regs (toU32 ((pc : Int) + 1 + toS32 w))
  | .JLT =>
    match code.get? pc with
    | none => .undef .codeOOB
    | some w =>
      if toS32 (regs s1).asU32 < toS32 (regs s2).asU32 then
        .next vm regs (toU32 ((pc : Int) + 1 + toS32 w))
      else .next vm regs (pc + 1)
  | .JLE =>
    match code.get? pc with
    | none => .undef .codeOOB
    | some w =>
      if toS32 (regs s1).asU32 ≤ toS32 (regs s2).asU32 then
        .next vm regs (toU32 ((pc : Int) + 1 + toS32 w))
      else .next vm regs (pc + 1)
  | .CALL =>
    match code.get? pc with
    | none => .undef .codeOOB
    | some w =>
      if MAX_PARAMS < vm.argCount then .undef (.argCountOOB vm.argCount)
      else
        let args := (List.range vm.argCount).map vm.argBuf
        .call {vm with argCount := 0} regs (pc + 1) dst (w % 4294967296) args
  | .CALL_HOST =>
    match code.get? pc with
    | none => .undef .codeOOB
    | some w =>
      match vmResolveHost vm (w % 4294967296) with
      | none => .done .NOIMPORT none vm
      | some h =>
        if MAX_PARAMS < vm.argCount then .undef (.argCountOOB vm.argCount)
        else
          let args := (List.range vm.argCount).map vm.argBuf
          let vm1 := {vm with argCount := 0}
          match h.fn args with
          | (e, r) =>
            if e = .OK then .next vm1 (upd regs dst r) (pc + 1)
            else .done e none vm1
  | .ARG =>
    let vm1 := if s1 < MAX_PARAMS
      then {vm with argBuf := upd vm.argBuf s1 (regs (if s2 ≠ 0 then s2 else dst))}
      else vm
    if MAX_PARAMS ≤ dst then .undef (.argSlotOOB dst)
    else
      let vm2 := {vm1 with argBuf := upd vm1.argBuf dst (regs s1),
                           argCount := if vm1.argCount ≤ dst then dst + 1 else vm1.argCount}
      .next vm2 regs pc
  | .LDI32 =>
    match code.get? pc with
    | none => .undef .codeOOB
    | some w => .next vm (upd regs dst (vI32 (w % 4294967296))) (pc + 1)
  | .LDI64 =>
    match code.get? pc with
    | none => .undef .codeOOB
    | some lo =>
      match code.get? (pc + 1) with
      | none => .undef .codeOOB
      | some hi =>
        .next vm (upd regs dst (vI64 (lo % 4294967296 + 4294967296 * (hi % 4294967296)))) (pc + 2)
  | .LDF32 =>
    match code.get? pc with
    | none => .undef .codeOOB
    | some w => .next vm (upd regs dst (vF32 (w % 4294967296))) (pc + 1)
  | .LDF64 =>
    match code.get? pc with
    | none => .undef .codeOOB
    | some lo =>
      match code.get? (pc + 1) with
      | none => .undef .codeOOB
      | some hi =>
        .next vm (upd regs dst (vF64 (lo % 4294967296 + 4294967296 * (hi % 4294967296)))) (pc + 2)
  | .LDTRUE => .next vm (upd regs dst (vBool true)) pc
  | .LDFALSE => .next vm (upd regs dst (vBool false)) pc
  | .LDGLOBAL =>
    match code.get? pc with
    | none => .undef .codeOOB
    | some w =>
      let gi := w % 4294967296
      if vm.mod.globals.length ≤ gi then .done .BOUNDS none vm
      else .next vm (upd regs dst (vm.globals.getD gi zeroVal)) (pc + 1)
  | .STGLOBAL =>
    match code.get? pc with
    | none => .undef .codeOOB
    | some w =>
      let gi := w % 4294967296
      if vm.mod.globals.length ≤ gi then .done .BOUNDS none vm
      else .next {vm with globals := vm.globals.set gi (regs s1)} regs (pc + 1)
  | .MOV => .next vm (upd regs dst (regs s1)) pc
  | .ADD32 =>
    .next vm (upd regs dst (vI32 (((regs s1).asU32 + (regs s2).asU32) % 4294967296))) pc
  | .SUB32 =>
    .next vm (upd regs dst (vI32 (toU32 (toS32 (regs s1).asU32 - toS32 (regs s2).asU32)))) pc
  | .MUL32 =>
    .next vm (upd regs dst (vI32 (((regs s1).asU32 * (regs s2).asU32) % 4294967296))) pc
  | .DIV32 =>
    if (regs s2).asU32 = 0 then .done .DIVZERO none vm
    else if toS32 (regs s1).asU32 = -2147483648 ∧ toS32 (regs s2).asU32 = -1 then
      .undef .sdivOverflow
    else
      .next vm (upd regs dst (vI32 (toU32 (Int.tdiv (toS32 (regs s1).asU32) (toS32 (regs s2).asU32))))) pc
  | .DIVU32 =>
    if (regs s2).asU32 = 0 then .done .DIVZERO none vm
    else .next vm (upd regs dst (vI32 ((regs s1).asU32 / (regs s2).asU32))) pc
  | .REM32 =>
    if (regs s2).asU32 = 0 then .done .DIVZERO none vm
    else if toS32 (regs s1).asU32 = -2147483648 ∧ toS32 (regs s2).asU32 = -1 then
      .undef .sdivOverflow
    else
      .next vm (upd regs dst (vI32 (toU32 (Int.tmod (toS32 (regs s1).asU32) (toS32 (regs s2).asU32))))) pc
  | .REMU32 =>
    if (regs s2).asU32 = 0 then .done .DIVZERO none vm
    else .next vm (upd regs dst (vI32 ((regs s1).asU32 % (regs s2).asU32))) pc
  | .NEG32 => .next vm (upd regs dst (vI32 (toU32 (-(toS32 (regs s1).asU32))))) pc
  | .AND32 => .next vm (upd regs dst (vI32 ((regs s1).asU32 &&& (regs s2).asU32))) pc
  | .OR32 => .next vm (upd regs dst (vI32 ((regs s1).asU32 ||| (regs s2).asU32))) pc
  | .XOR32 => .next vm (upd regs dst (vI32 ((regs s1).asU32 ^^^ (regs s2).asU32))) pc
  | .SHL32 =>
    .next vm (upd regs dst (vI32 ((regs s1).asU32 * 2 ^ ((regs s2).asU32 % 32) % 4294967296))) pc
  | .SHR32 =>
    .next vm (upd regs dst (vI32 (toU32 (Int.ediv (toS32 (regs s1).asU32) (2 ^ ((regs s2).asU32 % 32)))))) pc
  | .SHRU32 =>
    .next vm (upd regs dst (vI32 ((regs s1).asU32 / 2 ^ ((regs s2).asU32 % 32)))) pc
  | .NOT32 => .next vm (upd regs dst (vI32 (4294967295 - (regs s1).asU32))) pc
  | .CLZ32 => .next vm (upd regs dst (vI32 (clz32 (regs s1).asU32))) pc
  | .CTZ32 =>
    .next vm (upd regs dst (vI32 (if (regs s1).asU32 = 0 then 32 else ctzAux 32 (regs s1).asU32))) pc
  | .POPCNT32 => .next vm (upd regs dst (vI32 (popcnt32 (regs s1).asU32))) pc
  | .ADD64 =>
    .next vm (upd regs dst (vI64 (((regs s1).asU64 + (regs s2).asU64) % 18446744073709551616))) pc
  | .SUB64 =>
    .next vm (upd regs dst (vI64 (toU64 (toS64 (regs s1).asU64 - toS64 (regs s2).asU64)))) pc
  | .MUL64 =>
    .next vm (upd regs dst (vI64 (((regs s1).asU64 * (regs s2).asU64) % 18446744073709551616))) pc
  | .DIV64 =>
    if (regs s2).asU64 = 0 then .done .DIVZERO none vm
    else if toS64 (regs s1).asU64 = -9223372036854775808 ∧ toS64 (regs s2).asU64 = -1 then
      .undef .sdivOverflow
    else
      .next vm (upd regs dst (vI64 (toU64 (Int.tdiv (toS64 (regs s1).asU64) (toS64 (regs s2).asU64))))) pc
  | .DIVU64 =>
    if (regs s2).asU64 = 0 then .done .DIVZERO none vm
    else .next vm (upd regs dst (vI64 ((regs s1).asU64 / (regs s2).asU64))) pc
  | .REM64 =>
    if (regs s2).asU64 = 0 then .done .DIVZERO none vm
    else if toS64 (regs s1).asU64 = -9223372036854775808 ∧ toS64 (regs s2).asU64 = -1 then
      .undef .sdivOverflow
    else
      .next vm (upd regs dst (vI64 (toU64 (Int.tmod (toS64 (regs s1).asU64) (toS64 (regs s2).asU64))))) pc
  | .AND64 => .next vm (upd regs dst (vI64 ((regs s1).asU64 &&& (regs s2).asU64))) pc
  | .OR64 => .next vm (upd regs dst (vI64 ((regs s1).asU64 ||| (regs s2).asU64))) pc
  | .XOR64 => .next vm (upd regs dst (vI64 ((regs s1).asU64 ^^^ (regs s2).asU64))) pc
  | .SHL64 =>
    .next vm (upd regs dst (vI64 ((regs s1).asU64 * 2 ^ ((regs s2).asU64 % 64) % 18446744073709551616))) pc
  | .SHR64 =>
    .next vm (upd regs dst (vI64 (toU64 (Int.ediv (toS64 (regs s1).asU64) (2 ^ ((regs s2).asU64 % 64)))))) pc
  | .NOT64 => .next vm (upd regs dst (vI64 (18446744073709551615 - (regs s1).asU64))) pc
  | .NEG64 => .next vm (upd regs dst (vI64 (toU64 (-(toS64 (regs s1).asU64))))) pc
  | .FADD32 => .undef (.hostFloat .FADD32)
  | .FSUB32 => .undef (.hostFloat .FSUB32)
  | .FMUL32 => .undef (.hostFloat .FMUL32)
  | .FDIV32 => .undef (.hostFloat .FDIV32)
  | .FABS32 => .undef (.hostFloat .FABS32)
  | .FNEG32 => .undef (.hostFloat .FNEG32)
  | .FSQRT32 => .undef (.hostFloat .FSQRT32)
  | .FMIN32 => .undef (.hostFloat .FMIN32)
  | .FMAX32 => .undef (.hostFloat .FMAX32)
  | .FFLOOR32 => .undef (.hostFloat .FFLOOR32)
  | .FCEIL32 => .undef (.hostFloat .FCEIL32)
  | .FROUND32 => .undef (.hostFloat .FROUND32)
  | .FADD64 => .undef (.hostFloat .FADD64)
  | .FSUB64 => .undef (.hostFloat .FSUB64)
  | .FMUL64 => .undef (.hostFloat .FMUL64)
  | .FDIV64 => .undef (.hostFloat .FDIV64)
  | .FABS64 => .undef (.hostFloat .FABS64)
  | .FNEG64 => .undef (.hostFloat .FNEG64)
  | .FSQRT64 => .undef (.hostFloat .FSQRT64)
  | .FMIN64 => .undef (.hostFloat .FMIN64)
  | .FMAX64 => .undef (.hostFloat .FMAX64)
  | .FFLOOR64 => .undef (.hostFloat .FFLOOR64)
  | .FCEIL64 => .undef (.hostFloat .FCEIL64)
  | .FROUND64 => .undef (.hostFloat .FROUND64)
  | .EQ32 => .next vm (upd regs dst (vBool (decide ((regs s1).asU32 = (regs s2).asU32)))) pc
  | .NE32 => .next vm (upd regs dst (vBool (decide ((regs s1).asU32 ≠ (regs s2).asU32)))) pc
  | .LT32 => .next vm (upd regs dst (vBool (decide (toS32 (regs s1).asU32 < toS32 (regs s2).asU32)))) pc
  | .LE32 => .next vm (upd regs dst (vBool (decide (toS32 (regs s1).asU32 ≤ toS32 (regs s2).asU32)))) pc
  | .GT32 => .next vm (upd regs dst (vBool (decide (toS32 (regs s2).asU32 < toS32 (regs s1).asU32)))) pc
  | .GE32 => .next vm (upd regs dst (vBool (decide (toS32 (regs s2).asU32 ≤ toS32 (regs s1).asU32)))) pc
  | .LTU32 => .next vm (upd regs dst (vBool (decide ((regs s1).asU32 < (regs s2).asU32)))) pc
  | .LEU32 => .next vm (upd regs dst (vBool (decide ((regs s1).asU32 ≤ (regs s2).asU32)))) pc
  | .EQ64 => .next vm (upd regs dst (vBool (decide ((regs s1).asU64 = (regs s2).asU64)))) pc
  | .NE64 => .next vm (upd regs dst (vBool (decide ((regs s1).asU64 ≠ (regs s2).asU64)))) pc
  | .LT64 => .next vm (upd regs dst (vBool (decide (toS64 (regs s1).asU64 < toS64 (regs s2).asU64)))) pc
  | .LE64 => .next vm (upd regs dst (vBool (decide (toS64 (regs s1).asU64 ≤ toS64 (regs s2).asU64)))) pc
  | .FEQ32 => .undef (.hostFloat .FEQ32)
  | .FLT32 => .undef (.hostFloat .FLT32)
  | .FEQ64 => .undef (.hostFloat .FEQ64)
  | .FLT64 => .undef (.hostFloat .FLT64)
  | .I32_TO_I64 => .next vm (upd regs dst (vI64 (toU64 (toS32 (regs s1).asU32)))) pc
  | .I64_TO_I32 => .next vm (upd regs dst (vI32 ((regs s1).asU64 % 4294967296))) pc
  | .U32_TO_I64 => .next vm (upd regs dst (vI64 (regs s1).asU32)) pc
  | .I32_TO_F32 => .undef (.hostFloat .I32_TO_F32)
  | .I32_TO_F64 => .undef (.hostFloat .I32_TO_F64)
  | .F32_TO_I32 => .undef (.hostFloat .F32_TO_I32)
  | .F64_TO_I32 => .undef (.hostFloat .F64_TO_I32)
  | .F32_TO_F64 => .undef (.hostFloat .F32_TO_F64)
  | .F64_TO_F32 => .undef (.hostFloat .F64_TO_F32)
  | .I64_TO_F64 => .undef (.hostFloat .I64_TO_F64)
  | .F64_TO_I64 => .undef (.hostFloat .F64_TO_I64)
  | .BOOL_TO_I32 => .next vm (upd regs dst (vI32 (if (regs s1).asB then 1 else 0))) pc
  | .LOAD8 => execLoad vm regs code pc dst s1 1 (fun v => vI32 v)
  | .LOAD8S => execLoad vm regs code pc dst s1 1 (fun v => vI32 (sext32 8 v))
  | .LOAD16 => execLoad vm regs code pc dst s1 2 (fun v => vI32 v)
  | .LOAD16S => execLoad vm regs code pc dst s1 2 (fun v => vI32 (sext32 16 v))
  | .LOAD32 => execLoad vm regs code pc dst s1 4 (fun v => vI32 v)
  | .LOAD64 => execLoad vm regs code pc dst s1 8 (fun v => vI64 v)
  | .LOADF32 => execLoad vm regs code pc dst s1 4 (fun v => vF32 v)
  | .LOADF64 => execLoad vm regs code pc dst s1 8 (fun v => vF64 v)
  | .STORE8 => execStore vm regs code pc s1 1 (regs dst).asU32
  | .STORE16 => execStore vm regs code pc s1 2 (regs dst).asU32
  | .STORE32 => execStore vm regs code pc s1 4 (regs dst).asU32
  | .STORE64 => execStore vm regs code pc s1 8 (regs dst).asU64
  | .STOREF32 => execStore vm regs code pc s1 4 (regs dst).asU32
  | .STOREF64 => execStore vm regs code pc s1 8 (regs dst).asU64
  | .MEM_SIZE => .next vm (upd regs dst (vI32 (vm.memoryPages % 4294967296))) pc
  | .MEM_GROW =>
    let req := (regs s1).asU32
    let newPages := (vm.memoryPages + req) % 4294967296
    if vm.memoryMax < newPages then
      .next vm (upd regs dst (vI32 4294967295)) pc
    else
      let start := vm.memoryPages * PAGE_SIZE % 4294967296
      let len := req * PAGE_SIZE % 4294967296
      if vm.memoryMax * PAGE_SIZE < start + len then .undef .growMemsetOOB
      else
        .next {vm with memory := memFill vm.memory start 0 len, memoryPages := newPages}
          (upd regs dst (vI32 (vm.memoryPages % 4294967296))) pc
  | .MEM_COPY =>
    let pdst := (regs dst).asU32
    let psrc := (regs s1).asU32
    let sz := (regs s2).asU32
    if memCheck vm pdst sz = false then .direct .BOUNDS vm
    else if memCheck vm psrc sz = false then .direct .BOUNDS vm
    else .next {vm with memory := memCopy vm.memory pdst psrc sz} regs pc
  | .MEM_FILL =>
    let pdst := (regs dst).asU32
    let sz := (regs s2).asU32
    if memCheck vm pdst sz then
      .next {vm with memory := memFill vm.memory pdst (regs s1).asU32 sz} regs pc
    else .direct .BOUNDS vm

/-- Frame pop at the `done:` label. -/
def popFrame (vm : VMState) : VMState := {vm with frameCount := vm.frameCount - 1}

/-- The state mutation of `FUEL_TICK` (`++vm->fuel_used` when metering is
enabled). -/
def fuelTick (vm : VMState) : VMState :=
  if 0 < vm.cfg.fuelLimit then {vm with fuelUsed := vm.fuelUsed + 1} else vm

/-- Chunk a code byte slice into `code_size / 4` little-endian 32-bit
words, as the interpreter's `(const uint32_t *)fn->code` view does. -/
def codeWords (bytes : List Nat) : List Nat :=
  (List.range (bytes.length / 4)).map (fun i =>
    bytes.getD (4 * i) 0 % 256 + 256 * (bytes.getD (4 * i + 1) 0 % 256)
      + 65536 * (bytes.getD (4 * i + 2) 0 % 256)
      + 16777216 * (bytes.getD (4 * i + 3) 0 % 256))

mutual

/-- `vm_exec`: initialized gate, stack-overflow gate, function lookup
(unchecked in C — out of range is an explicit `CUndef`), import dispatch
or frame push + interpreter loop.  The first argument is the embedding's
step budget. -/
def vmExecGo : Nat → VMState → Nat → List RuneVal → ExecOut
  | 0, _, _, _ => .spin
  | fuel + 1, vm, funcIdx, args =>
    if vm.initialized = false ∧ funcIdx ≠ toU32 vm.mod.initFunc then
      .norm .BADMODULE .vVoid vm
    else if vm.cfg.stackSize ≤ vm.frameCount then
      .norm .STACKOVERFLOW .vVoid vm
    else
      match vm.mod.funcs.get? funcIdx with
      | none => .undef (.funcIdxOOB funcIdx)
      | some fn =>
        if fn.isImport then
          match vmResolveHost vm fn.importIdx with
          | none => .norm .NOIMPORT .vVoid vm
          | some h =>
            match h.fn args with
            | (e, r) => .norm e r vm
        else
          let vm1 := {vm with frameCount := vm.frameCount + 1}
          let n := min args.length fn.regCount
          let regs : Nat → RuneVal := fun i => if i < n then args.getD i zeroVal else zeroVal
          loopGo fuel vm1 regs (codeWords fn.code) 0

/-- The fetch/dispatch loop (`while (PC < code_words)`), including the
`FUEL_TICK` of `NEXT()`.  Note which exits pop the frame (`done:`) and
which do not (`MEM_CHECK` / `FUEL_TICK` return directly). -/
def loopGo : Nat → VMState → (Nat → RuneVal) → List Nat → Nat → ExecOut
  | 0, _, _, _, _ => .spin
  | fuel + 1, vm, regs, code, pc =>
    if pc < code.length then
      let vmT := fuelTick vm
      if 0 < vm.cfg.fuelLimit ∧ vm.cfg.fuelLimit < vmT.fuelUsed then
        .norm .FUEL .vVoid vmT
      else
        let instr := code.getD pc 0
        match opcodeOfNat (instr % 256) with
        | none => .norm .BADOPCODE .vVoid (popFrame vmT)
        | some o =>
          match execOp o vmT regs code (pc + 1) (instr / 256 % 256)
              (instr / 65536 % 256) (instr / 16777216 % 256) with
          | .next vm2 regs2 pc2 => loopGo fuel vm2 regs2 code pc2
          | .done e r vm2 => .norm e (r.getD .vVoid) (popFrame vm2)
          | .direct e vm2 => .norm e .vVoid vm2
          | .undef u => .undef u
          | .call vm2 regs2 pc2 dst fi args =>
            match vmExecGo fuel vm2 fi args with
            | .norm e r vm3 =>
              if e = .OK then loopGo fuel vm3 (upd regs2 dst r) code pc2
              else .norm e .vVoid (popFrame vm3)
            | out => out
    else
      .norm .OK (regs 0) (popFrame vm)

end

/-! ## Public embedding surface -/

/-- `rune_vm_new` (allocation failure is not modelled; `calloc` zeroes
every field). -/
def runeVmNew (mod : RuneModule) (cfg : Option RuneConfig) : VMState :=
  { mod := mod, cfg := cfg.getD configDefault, hostFns := [],
    memAllocated := false, memory := fun _ => 0, memoryPages := 0, memoryMax := 0,
    globals := [], frameCount := 0, argBuf := fun _ => zeroVal, argCount := 0,
    fuelUsed := 0, initialized := false }

/-- `rune_vm_register`: rejected after init, otherwise appends the entry
to the host table. -/
def runeVmRegister (vm : VMState) (m n : List Nat) (f : HostFn) : RuneErr × VMState :=
  if vm.initialized then (.BADMODULE, vm)
  else (.OK, {vm with hostFns := vm.hostFns ++ [⟨m, n, f⟩]})

/-- Overwrite `bytes` into memory starting at `off` (the data-segment
`memcpy`). -/
def writeBytes (mem : Nat → Nat) (off : Nat) : List Nat → (Nat → Nat)
  | [] => mem
  | b :: rest => writeBytes (updN mem off (b % 256)) (off + 1) rest

/-- Apply the data segments in order.  The C end check computes
`offset + size` in `uint32_t`: a wrapped end that passes the check sends
the `memcpy` beyond the allocation — kept as an explicit `CUndef`. -/
def applyDataSegs (vm : VMState) : List RuneDataSeg → ExecOut
  | [] => .norm .OK .vVoid vm
  | seg :: rest =>
    let endOff := (seg.offset + seg.data.length) % 4294967296
    if vm.memoryPages * PAGE_SIZE % 4294967296 < endOff then .norm .BOUNDS .vVoid vm
    else if 4294967296 ≤ seg.offset + seg.data.length then .undef .dataSegMemcpyOOB
    else applyDataSegs {vm with memory := writeBytes vm.memory seg.offset seg.data} rest

/-- The phases of `rune_vm_init` that precede `vm->initialized = true`:
the import resolution, linear-memory allocation against the config
limit, data segments, globals copy. -/
def runeVmInitPre (vm : VMState) : ExecOut :=
  let mod := vm.mod
  match mod.imports.find? (fun imp =>
      (vm.hostFns.find? (fun h => cstrEq h.module imp.module && cstrEq h.name imp.name)).isNone) with
  | some _ => .norm .NOIMPORT .vVoid vm
  | none =>
    let afterMem : ExecOut :=
      if mod.hasMemory then
        let maxPages := if 0 < mod.memMaxPages then mod.memMaxPages else mod.memInitialPages
        if vm.cfg.memoryLimit < maxPages * PAGE_SIZE then .norm .OOM .vVoid vm
        else
          applyDataSegs
            {vm with memAllocated := true, memory := fun _ => 0,
                     memoryPages := mod.memInitialPages, memoryMax := maxPages}
            mod.dataSegs
      else .norm .OK .vVoid vm
    match afterMem with
    | .norm .OK _ vm2 => .norm .OK .vVoid {vm2 with globals := mod.globals.map (·.value)}
    | other => other

/-- `rune_vm_init`: the pre-phases, then `vm->initialized = true`, then
`_init` if declared — note the flag is set *before* `_init` runs and is
not cleared when `_init` fails. -/
def runeVmInit (fuel : Nat) (vm : VMState) : ExecOut :=
  match runeVmInitPre vm with
  | .norm .OK _ vm1 =>
    let vm2 := {vm1 with initialized := true}
    if 0 ≤ vm2.mod.initFunc then
      match vmExecGo fuel vm2 (toU32 vm2.mod.initFunc) [] with
      | .norm e _ vm3 => if e = .OK then .norm .OK .vVoid vm3 else .norm e .vVoid vm3
      | other => other
    else .norm .OK .vVoid vm2
  | other => other

/-- `rune_vm_call`: initialized gate, then the first `FUNC`-kind export
whose name matches, then `vm_exec`. -/
def runeVmCall (fuel : Nat) (vm : VMState) (name : List Nat) (args : List RuneVal) : ExecOut :=
  if vm.initialized = false then .norm .BADMODULE .vVoid vm
  else
    match vm.mod.exports.find? (fun e => decide (e.kind = EXPORT_FUNC) && cstrEq e.name name) with
    | some e => vmExecGo fuel vm e.idx args
    | none => .norm .NOEXPORT .vVoid vm

/-! ### Result extractors (observable projections of `ExecOut`, used so
concrete runs can be settled by `decide`/`rfl` without comparing whole
states containing functions) -/

/-- Error code of a normal outcome. -/
def ExecOut.errOf : ExecOut → Option RuneErr
  | .norm e _ _ => some e
  | _ => none

/-- Return value of a normal outcome. -/
def ExecOut.retOf : ExecOut → Option RuneVal
  | .norm _ r _ => some r
  | _ => none

/-- Frame count of the resulting state. -/
def ExecOut.framesOf : ExecOut → Option Nat
  | .norm _ _ vm => some vm.frameCount
  | _ => none

/-- Initialized flag of the resulting state. -/
def ExecOut.initializedOf : ExecOut → Option Bool
  | .norm _ _ vm => some vm.initialized
  | _ => none

/-- Undefined-behaviour marker of the outcome, if any. -/
def ExecOut.undefOf : ExecOut → Option CUndef
  | .undef u => some u
  | _ => none

/-! ## Module loading -/

/-- CRC-32 (ISO 3309, reflected, poly `0xEDB88320`): one byte. -/
def crc32Byte (crc b : Nat) : Nat :=
  (List.range 8).foldl
    (fun c _ => c / 2 ^^^ (if c % 2 = 1 then 0xEDB88320 else 0))
    (crc ^^^ b % 256)

/-- `crc32_update`: complement, fold the bytes, complement. -/
def crc32Update (crc : Nat) (data : List Nat) : Nat :=
  (data.foldl crc32Byte (crc % 4294967296 ^^^ 0xFFFFFFFF)) ^^^ 0xFFFFFFFF

/-- The little-endian byte reader `reader_t` (`base`/`len` are the list,
`pos` the cursor, `err` the sticky error flag). -/
structure Rdr where
  base : List Nat
  pos : Nat
  err : Bool
deriving Repr

/-- `read_u8`: 0 and the error flag past the end. -/
def rdU8 (r : Rdr) : Nat × Rdr :=
  if r.base.length ≤ r.pos then (0, {r with err := true})
  else (r.base.getD r.pos 0 % 256, {r with pos := r.pos + 1})

/-- `read_u16` (two `read_u8`, little-endian). -/
def rdU16 (r : Rdr) : Nat × Rdr :=
  let (b0, r) := rdU8 r
  let (b1, r) := rdU8 r
  (b0 + 256 * b1, r)

/-- `read_u32`. -/
def rdU32 (r : Rdr) : Nat × Rdr :=
  let (b0, r) := rdU8 r
  let (b1, r) := rdU8 r
  let (b2, r) := rdU8 r
  let (b3, r) := rdU8 r
  (b0 + 256 * b1 + 65536 * b2 + 16777216 * b3, r)

/-- `read_u64`. -/
def rdU64 (r : Rdr) : Nat × Rdr :=
  let (lo, r) := rdU32 r
  let (hi, r) := rdU32 r
  (lo + 4294967296 * hi, r)

/-- `read_bytes`: `n` bytes or error. -/
def rdBytes (r : Rdr) (n : Nat) : Option (List Nat) × Rdr :=
  if r.base.length < r.pos + n then (none, {r with err := true})
  else (some ((r.base.drop r.pos).take n), {r with pos := r.pos + n})

/-- `read_string` with a 1-byte length prefix (the only form the parsers
use): length, 4096 cap, bytes.  The returned list is the raw bytes (the
C copy is NUL-terminated; comparisons go through `cstrEq`). -/
def rdString1 (r : Rdr) : Option (List Nat) × Rdr :=
  let (len, r) := rdU8 r
  if r.err ∨ 4096 < len then (none, {r with err := true})
  else
    match rdBytes r len with
    | (none, r) => (none, {r with err := true})
    | (some s, r) => (some s, r)

/-- `parse_type_section`. -/
def parseTypeSection (mod : RuneModule) (r : Rdr) : RuneErr × RuneModule × Rdr :=
  let (count, r) := rdU32 r
  if r.err ∨ MAX_FUNCS < count then (.BADMODULE, mod, r)
  else
    let rec go (acc : List RuneFuncType) (r : Rdr) : Nat → RuneErr × List RuneFuncType × Rdr
      | 0 => (.OK, acc, r)
      | k + 1 =>
        let (pc, r) := rdU8 r
        let (rc, r) := rdU8 r
        if r.err ∨ MAX_PARAMS < pc ∨ 1 < rc then (.BADMODULE, acc, r)
        else
          let ps := (List.range pc).foldl
            (fun (a : List Nat × Rdr) _ =>
              let (b, r) := rdU8 a.2; (a.1 ++ [b], r)) ([], r)
          let rs := (List.range rc).foldl
            (fun (a : List Nat × Rdr) _ =>
              let (b, r) := rdU8 a.2; (a.1 ++ [b], r)) ([], ps.2)
          let r := rs.2
          if r.err then (.BADMODULE, acc, r)
          else go (acc ++ [⟨ps.1, rs.1⟩]) r k
    match go [] r count with
    | (.OK, ts, r) => (.OK, {mod with types := ts}, r)
    | (e, ts, r) => (e, {mod with types := ts}, r)

/-- `parse_import_section`. -/
def parseImportSection (mod : RuneModule) (r : Rdr) : RuneErr × RuneModule × Rdr :=
  let (count, r) := rdU32 r
  if r.err ∨ MAX_FUNCS < count then (.BADMODULE, mod, r)
  else
    let rec go (acc : List RuneImport) (r : Rdr) : Nat → RuneErr × List RuneImport × Rdr
      | 0 => (.OK, acc, r)
      | k + 1 =>
        let (m, r) := rdString1 r
        let (n, r) := rdString1 r
        let (ti, r) := rdU16 r
        if r.err then (.BADMODULE, acc, r)
        else go (acc ++ [⟨m.getD [], n.getD [], ti⟩]) r k
    match go [] r count with
    | (e, is, r) => (e, {mod with imports := is}, r)

/-- `parse_func_section`: marks the imports, then reads the body
descriptors.  No validation of `type_idx` happens here (the point of
claim C5). -/
def parseFuncSection (mod : RuneModule) (r : Rdr) : RuneErr × RuneModule × Rdr :=
  let (bodyCount, r) := rdU32 r
  if r.err then (.BADMODULE, mod, r)
  else if MAX_FUNCS < mod.imports.length + bodyCount then (.BADMODULE, mod, r)
  else
    let importFuncs : List RuneFunc :=
      (List.range mod.imports.length).map (fun i =>
        { typeIdx := (mod.imports.getD i ⟨[], [], 0⟩).typeIdx, regCount := 0,
          localCount := 0, code := [], isImport := true, importIdx := i })
    let rec go (acc : List RuneFunc) (r : Rdr) : Nat → RuneErr × List RuneFunc × Rdr
      | 0 => (.OK, acc, r)
      | k + 1 =>
        let (ti, r) := rdU16 r
        let (rc, r) := rdU8 r
        let (lc, r) := rdU8 r
        if r.err then (.BADMODULE, acc, r)
        else go (acc ++ [{ typeIdx := ti, regCount := rc, localCount := lc,
                           code := [], isImport := false, importIdx := 0 }]) r k
    match go importFuncs r bodyCount with
    | (e, fs, r) => (e, {mod with funcs := fs}, r)

/-- `parse_memory_section`. -/
def parseMemorySection (mod : RuneModule) (r : Rdr) : RuneErr × RuneModule × Rdr :=
  let (ini, r) := rdU16 r
  let (mx, r) := rdU16 r
  if r.err then (.BADMODULE, mod, r)
  else (.OK, {mod with memInitialPages := ini, memMaxPages := mx, hasMemory := true}, r)

/-- `parse_global_section` (the `raw` u64 is reinterpreted per the type
byte; the float cases keep the bit pattern, matching the `memcpy`). -/
def parseGlobalSection (mod : RuneModule) (r : Rdr) : RuneErr × RuneModule × Rdr :=
  let (count, r) := rdU32 r
  if r.err ∨ MAX_GLOBALS < count then (.BADMODULE, mod, r)
  else
    let rec go (acc : List RuneGlobal) (r : Rdr) : Nat → RuneErr × List RuneGlobal × Rdr
      | 0 => (.OK, acc, r)
      | k + 1 =>
        let (ty, r) := rdU8 r
        let (mu, r) := rdU8 r
        let (raw, r) := rdU64 r
        if r.err then (.BADMODULE, acc, r)
        else
          match typeValOfRaw ty raw with
          | none => (.BADMODULE, acc, r)
          | some v => go (acc ++ [⟨ty, mu ≠ 0, v⟩]) r k
    match go [] r count with
    | (e, gs, r) => (e, {mod with globals := gs}, r)
where
  /-- Modelled from the spec: the numeric values of `rune_type_t` are
  in the missing header; §4.1 fixes the switch shape (I32/I64 truncate
  or keep the raw integer, F32/F64 keep the bit pattern, anything else
  is `BADMODULE`).  The codes 0-3 chosen here are used consistently by
  every concrete module built below. -/
  typeValOfRaw (ty raw : Nat) : Option RuneVal :=
    if ty = 0 then some (.vI32 (raw % 4294967296))
    else if ty = 1 then some (.vI64 raw)
    else if ty = 2 then some (.vF32 (raw % 4294967296))
    else if ty = 3 then some (.vF64 raw)
    else none

/-- `parse_export_section`. -/
def parseExportSection (mod : RuneModule) (r : Rdr) : RuneErr × RuneModule × Rdr :=
  let (count, r) := rdU32 r
  if r.err ∨ 65536 < count then (.BADMODULE, mod, r)
  else
    let rec go (acc : List RuneExport) (r : Rdr) : Nat → RuneErr × List RuneExport × Rdr
      | 0 => (.OK, acc, r)
      | k + 1 =>
        let (kind, r) := rdU8 r
        let (idx, r) := rdU32 r
        let (name, r) := rdString1 r
        if r.err ∨ name.isNone then (.BADMODULE, acc, r)
        else go (acc ++ [⟨kind, idx, name.getD []⟩]) r k
    match go [] r count with
    | (e, es, r) => (e, {mod with exports := es}, r)

/-- `parse_code_section`: the count must equal
`func_count - import_count` (computed in `uint32_t`, so it wraps when
the FUNC section is absent but imports exist); each body size must be a
multiple of 4; bodies land in the corresponding non-import function
slots.  (A `funcs` slot lookup that misses — a NULL/overflow write in C
— is folded into `BADMODULE`; no claim reaches it.) -/
def parseCodeSection (mod : RuneModule) (r : Rdr) : RuneErr × RuneModule × Rdr :=
  let (count, r) := rdU32 r
  if r.err ∨ count ≠ (mod.funcs.length + 4294967296 - mod.imports.length) % 4294967296 then
    (.BADMODULE, mod, r)
  else
    let rec go (mod : RuneModule) (r : Rdr) (i : Nat) : Nat → RuneErr × RuneModule × Rdr
      | 0 => (.OK, mod, r)
      | k + 1 =>
        let (bodySize, r) := rdU32 r
        if r.err ∨ bodySize % 4 ≠ 0 then (.BADMODULE, mod, r)
        else
          match rdBytes r bodySize with
          | (none, r) => (.BADMODULE, mod, r)
          | (some bytes, r) =>
            let fs := mod.funcs
            let j := mod.imports.length + i
            match fs.get? j with
            | none => (.BADMODULE, mod, r)
            | some f =>
              go {mod with funcs := fs.set j {f with code := bytes}} r (i + 1) k
    go mod r 0 count

/-- `parse_data_section`. -/
def parseDataSection (mod : RuneModule) (r : Rdr) : RuneErr × RuneModule × Rdr :=
  let (count, r) := rdU32 r
  if r.err ∨ 4096 < count then (.BADMODULE, mod, r)
  else
    let rec go (acc : List RuneDataSeg) (r : Rdr) : Nat → RuneErr × List RuneDataSeg × Rdr
      | 0 => (.OK, acc, r)
      | k + 1 =>
        let (_, r) := rdU8 r
        let (offset, r) := rdU32 r
        let (segSize, r) := rdU32 r
        match rdBytes r segSize with
        | (none, r) => (.BADMODULE, acc, r)
        | (some data, r) =>
          if r.err then (.BADMODULE, acc, r)
          else go (acc ++ [⟨offset, data⟩]) r k
    match go [] r count with
    | (e, ds, r) => (e, {mod with dataSegs := ds}, r)

/-- Modelled from the spec: the fixed 4-byte ASCII magic tag (§6; the
actual bytes are in the missing `rune_bytecode.h` — the tag value is
irrelevant to every claim, only the equality test matters).  Chosen as
ASCII RUNE. -/
def RUNE_MAGIC : List Nat := [82, 85, 78, 69]

/-- Modelled from the spec: the container version (`RUNE_BC_VERSION`,
value in the missing header). -/
def RUNE_BC_VERSION : Nat := 1

/-- Modelled from the spec: the numeric section ids of
`rune_sect_id_t` (missing header); distinct codes in spec order, all
other ids skipped as unknown. -/
def SECT_TYPE : Nat := 1

/-- Modelled from the spec: IMPORT section id. -/
def SECT_IMPORT : Nat := 2

/-- Modelled from the spec: FUNC section id. -/
def SECT_FUNC : Nat := 3

/-- Modelled from the spec: MEMORY section id. -/
def SECT_MEMORY : Nat := 4

/-- Modelled from the spec: GLOBAL section id. -/
def SECT_GLOBAL : Nat := 5

/-- Modelled from the spec: EXPORT section id. -/
def SECT_EXPORT : Nat := 6

/-- Modelled from the spec: CODE section id. -/
def SECT_CODE : Nat := 7

/-- Modelled from the spec: DATA section id. -/
def SECT_DATA : Nat := 8

/-- Dispatch one section body. -/
def parseSection (sectId : Nat) (sectSize : Nat) (mod : RuneModule) (r : Rdr) :
    RuneErr × RuneModule × Rdr :=
  if sectId = SECT_TYPE then parseTypeSection mod r
  else if sectId = SECT_IMPORT then parseImportSection mod r
  else if sectId = SECT_FUNC then parseFuncSection mod r
  else if sectId = SECT_MEMORY then parseMemorySection mod r
  else if sectId = SECT_GLOBAL then parseGlobalSection mod r
  else if sectId = SECT_EXPORT then parseExportSection mod r
  else if sectId = SECT_CODE then parseCodeSection mod r
  else if sectId = SECT_DATA then parseDataSection mod r
  else
    match rdBytes r sectSize with
    | (_, r) => (.OK, mod, r)

/-- Outcome of `rune_module_load`. -/
inductive LoadOut where
  | ok (mod : RuneModule)
  | errL (e : RuneErr)
  | spinL

/-- The section loop of `rune_module_load` (`while (!r.error && r.pos <
r.len)`), with an embedding step budget (each iteration consumes at
least five bytes, so `base.length` iterations always suffice). -/
def loadSections (budget : Nat) (mod : RuneModule) (r : Rdr) : LoadOut × RuneModule × Rdr :=
  match budget with
  | 0 => (.spinL, mod, r)
  | budget + 1 =>
    if r.err = false ∧ r.pos < r.base.length then
      let (sectId, r) := rdU8 r
      let (sectSize, r) := rdU32 r
      if r.err then (.errL .BADMODULE, mod, r)
      else
        let sectStart := r.pos
        match parseSection sectId sectSize mod r with
        | (.OK, mod, r) =>
          let consumed := r.pos - sectStart
          if consumed < sectSize then
            match rdBytes r (sectSize - consumed) with
            | (_, r) => loadSections budget mod r
          else loadSections budget mod r
        | (e, mod, r) => (.errL e, mod, r)
    else (.ok mod, mod, r)

/-- An empty module record (the `calloc` of `rune_module_load`). -/
def emptyModule : RuneModule :=
  { types := [], imports := [], funcs := [], globals := [], exports := [],
    memInitialPages := 0, memMaxPages := 0, hasMemory := false,
    dataSegs := [], initFunc := -1 }

/-- ASCII bytes of the name `_init`. -/
def initName : List Nat := [95, 105, 110, 105, 116]

/-- `rune_module_load`: header checks (magic, version, CRC over the bytes
after the 20-byte header), section loop, then the `_init` export scan. -/
def runeModuleLoad (raw : List Nat) : LoadOut :=
  if raw.length < 20 then .errL .BADMODULE
  else if raw.take 4 ≠ RUNE_MAGIC then .errL .BADMAGIC
  else
    let version := raw.getD 4 0 % 256 + 256 * (raw.getD 5 0 % 256)
      + 65536 * (raw.getD 6 0 % 256) + 16777216 * (raw.getD 7 0 % 256)
    if version ≠ RUNE_BC_VERSION then .errL .VERSION
    else
      let crcStored := raw.getD 16 0 % 256 + 256 * (raw.getD 17 0 % 256)
        + 65536 * (raw.getD 18 0 % 256) + 16777216 * (raw.getD 19 0 % 256)
      let payload := raw.drop 20
      if crc32Update 0 payload ≠ crcStored then .errL .BADMODULE
      else
        match loadSections (payload.length + 1) emptyModule ⟨payload, 0, false⟩ with
        | (.ok mod, _, r) =>
          if r.err then .errL .BADMODULE
          else
            match mod.exports.find? (fun e =>
                decide (e.kind = EXPORT_FUNC) && cstrEq e.name initName) with
            | some e => .ok {mod with initFunc := toS32 e.idx}
            | none => .ok mod
        | (.errL e, _, _) => .errL e
        | (.spinL, _, _) => .spinL

/-- Whether a load succeeded. -/
def LoadOut.isOk : LoadOut → Bool
  | .ok _ => true
  | _ => false

/-- The loaded module, if any. -/
def LoadOut.modOf : LoadOut → Option RuneModule
  | .ok m => some m
  | _ => none

/-! ## Concrete programs and states used to settle the claims -/

/-- Little-endian 4-byte encoding of a 32-bit value. -/
def le4 (v : Nat) : List Nat := [v % 256, v / 256 % 256, v / 65536 % 256, v / 16777216 % 256]

/-- Serialise instruction words to the code byte slice. -/
def wordsToBytes (ws : List Nat) : List Nat := (ws.map le4).flatten

/-- State of a normal outcome (with a fallback, for chaining concrete
builds). -/
def ExecOut.stateD (o : ExecOut) (d : VMState) : VMState :=
  match o with
  | .norm _ _ vm => vm
  | _ => d

/-- Classify the plain load/store opcodes with their access width (the
`MEM_COPY`/`MEM_FILL` triples are treated separately). -/
def memOpInfo : Opcode → Option (Bool × Nat)
  | .LOAD8 => some (false, 1)
  | .LOAD8S => some (false, 1)
  | .LOAD16 => some (false, 2)
  | .LOAD16S => some (false, 2)
  | .LOAD32 => some (false, 4)
  | .LOAD64 => some (false, 8)
  | .LOADF32 => some (false, 4)
  | .LOADF64 => some (false, 8)
  | .STORE8 => some (true, 1)
  | .STORE16 => some (true, 2)
  | .STORE32 => some (true, 4)
  | .STORE64 => some (true, 8)
  | .STOREF32 => some (true, 4)
  | .STOREF64 => some (true, 8)
  | _ => none

/-- A VM over the empty module (used where only register/argument state
matters). -/
def vm0 : VMState := runeVmNew emptyModule none

/-- Export name bytes f. -/
def nmF : List Nat := [102]

/-- Export name bytes g. -/
def nmG : List Nat := [103]

/-- Export name bytes go. -/
def nmGo : List Nat := [103, 111]

/-- A one-page module whose export `f` loads 4 bytes at offset 70000 —
past the single page. -/
def fnC8 : RuneFunc :=
  { typeIdx := 0, regCount := 4, localCount := 0,
    code := wordsToBytes [instrWord .LOAD32 0 0 0, 70000, instrWord .RET 0 0 0],
    isImport := false, importIdx := 0 }

/-- Module for the frame-leak run (1 page of memory, max 1). -/
def modC8 : RuneModule :=
  { emptyModule with
    funcs := [fnC8], exports := [⟨EXPORT_FUNC, 0, nmF⟩],
    memInitialPages := 1, memMaxPages := 1, hasMemory := true }

/-- The initialized VM of `modC8` (built through `rune_vm_new` +
`rune_vm_init`, as a host would). -/
def vmC8 : VMState := (runeVmInit 10 (runeVmNew modC8 none)).stateD (runeVmNew modC8 none)

/-- Module with one page of memory and no code (for the `MEM_GROW`
state). -/
def modC2 : RuneModule :=
  { emptyModule with hasMemory := true, memInitialPages := 1, memMaxPages := 1 }

/-- Initialized VM with `memory_pages = memory_max = 1`. -/
def vmC2 : VMState := (runeVmInit 10 (runeVmNew modC2 none)).stateD (runeVmNew modC2 none)

/-- Registers for the `DIV32` overflow input: `R0 = INT32_MIN`,
`R1 = -1`. -/
def regsC6 : Nat → RuneVal :=
  fun i => if i = 0 then .vI32 2147483648 else .vI32 4294967295

/-- A module whose export `g` is a single `CALL` with immediate function
index 5 — out of range for its one-function table. -/
def fnC9 : RuneFunc :=
  { typeIdx := 0, regCount := 2, localCount := 0,
    code := wordsToBytes [instrWord .CALL 0 0 0, 5],
    isImport := false, importIdx := 0 }

/-- Module for the out-of-range `CALL`. -/
def modC9 : RuneModule :=
  { emptyModule with funcs := [fnC9], exports := [⟨EXPORT_FUNC, 0, nmG⟩] }

/-- Initialized VM of `modC9`. -/
def vmC9 : VMState := (runeVmInit 10 (runeVmNew modC9 none)).stateD (runeVmNew modC9 none)

/-- First host callback: returns i32 1. -/
def hostF1 : HostFn := fun _ => (.OK, .vI32 1)

/-- Second host callback: returns i32 2. -/
def hostF2 : HostFn := fun _ => (.OK, .vI32 2)

/-- Import function slot (function index 0 of `modC7`). -/
def fnImp : RuneFunc :=
  { typeIdx := 0, regCount := 0, localCount := 0, code := [], isImport := true, importIdx := 0 }

/-- Export `go`: `CALL_HOST` import 0, then return its result. -/
def fnC7 : RuneFunc :=
  { typeIdx := 0, regCount := 2, localCount := 0,
    code := wordsToBytes [instrWord .CALL_HOST 0 0 0, 0, instrWord .RET 0 0 0],
    isImport := false, importIdx := 0 }

/-- Module with one import `m::n` and the `go` export. -/
def modC7 : RuneModule :=
  { emptyModule with
    imports := [⟨[109], [110], 0⟩], funcs := [fnImp, fnC7],
    exports := [⟨EXPORT_FUNC, 1, nmGo⟩] }

/-- VM of `modC7` with `hostF1` registered first and `hostF2` second for
the same `(m, n)` pair, then initialized. -/
def vmC7 : VMState :=
  let v := runeVmNew modC7 none
  let v := (runeVmRegister v [109] [110] hostF1).2
  let v := (runeVmRegister v [109] [110] hostF2).2
  (runeVmInit 10 v).stateD v

/-- `_init` body: a single `TRAP`. -/
def fnC4 : RuneFunc :=
  { typeIdx := 0, regCount := 2, localCount := 0,
    code := wordsToBytes [instrWord .TRAP 0 0 0],
    isImport := false, importIdx := 0 }

/-- Module whose `_init` export traps immediately. -/
def modC4 : RuneModule :=
  { emptyModule with
    funcs := [fnC4], exports := [⟨EXPORT_FUNC, 0, initName⟩], initFunc := 0 }

/-- VM state with argument slot 1 staged to i32 7 (`arg_count = 2`). -/
def vmC3 : VMState :=
  { vm0 with argBuf := fun i => if i = 1 then .vI32 7 else zeroVal, argCount := 2 }

/-- Registers for the `ARG` run: `R0 = 5`, `R1 = 9`. -/
def regsC3 : Nat → RuneVal :=
  fun i => if i = 0 then .vI32 5 else if i = 1 then .vI32 9 else zeroVal

/-- Default function record (for `getD`). -/
def dFn : RuneFunc :=
  { typeIdx := 0, regCount := 0, localCount := 0, code := [], isImport := false, importIdx := 0 }

/-- Default import record. -/
def dImp : RuneImport := ⟨[], [], 0⟩

/-- Default export record. -/
def dExp : RuneExport := ⟨0, 0, []⟩

/-- Default global record. -/
def dGlob : RuneGlobal := ⟨0, false, zeroVal⟩

/-- Module declaring one **immutable** i32 global with initial value 7. -/
def modC10 : RuneModule := { emptyModule with globals := [⟨0, false, .vI32 7⟩] }

/-- Initialized VM of `modC10` (globals copied from the module). -/
def vmC10 : VMState := (runeVmInit 10 (runeVmNew modC10 none)).stateD (runeVmNew modC10 none)

/-- Payload of a well-formed container whose FUNC section declares
`type_idx = 7` and whose IMPORT declares `type_idx = 5` with **no** TYPE
section, and whose EXPORT references function index 9 of a 2-function
table: import `m::n` (type 5), one body (type 7, 1 register), export
`x` = `(FUNC, 9)`. -/
def exC5payload : List Nat :=
  [SECT_IMPORT] ++ le4 10 ++ ([1, 0, 0, 0] ++ [1, 109] ++ [1, 110] ++ [5, 0])
  ++ [SECT_FUNC] ++ le4 8 ++ ([1, 0, 0, 0] ++ [7, 0] ++ [1] ++ [0])
  ++ [SECT_EXPORT] ++ le4 11 ++ ([1, 0, 0, 0] ++ [EXPORT_FUNC] ++ le4 9 ++ [1, 120])

/-- The full container bytes: header (magic, version, flags, reserved,
CRC of the payload) followed by the payload. -/
def exC5bytes : List Nat :=
  RUNE_MAGIC ++ le4 RUNE_BC_VERSION ++ le4 0 ++ le4 0
    ++ le4 (crc32Update 0 exC5payload) ++ exC5payload

/-- The resulting state(s) of a step action carry `initialized = b` (used
for the interpreter invariant behind claim C4). -/
def StepAct.keepsInit (b : Bool) : StepAct → Prop
  | .next vm' _ _ => vm'.initialized = b
  | .done _ _ vm' => vm'.initialized = b
  | .direct _ vm' => vm'.initialized = b
  | .call vm' _ _ _ _ _ => vm'.initialized = b
  | .undef _ => True

/-! ## Locality of the byte-level memory primitives -/

/-- `readLE` only looks at the bytes `[off, off+n)`. -/
theorem readLE_congr (mem mem₂ : Nat → Nat) :
    ∀ (n off : Nat), (∀ i, off ≤ i → i < off + n → mem₂ i = mem i) →
      readLE mem₂ off n = readLE mem off n := by
  intro n
  induction n with
  | zero => intro off _; rfl
  | succ k ih =>
    intro off h
    simp only [readLE]
    rw [h off (Nat.le_refl off) (by omega),
        ih (off + 1) (fun i h1 h2 => h i (by omega) (by omega))]

/-- `storeLE` leaves every byte outside `[off, off+n)` unchanged. -/
theorem storeLE_outside (i : Nat) :
    ∀ (n : Nat) (mem : Nat → Nat) (off v : Nat), i < off ∨ off + n ≤ i →
      storeLE mem off v n i = mem i := by
  intro n
  induction n with
  | zero => intro mem off v _; rfl
  | succ k ih =>
    intro mem off v h
    simp only [storeLE]
    rw [ih _ (off + 1) (v / 256) (by omega)]
    have hne : i ≠ off := by omega
    simp [updN, hne]

/-- The bytes `storeLE` writes inside `[off, off+n)` do not depend on
the previous memory contents. -/
theorem storeLE_indep (i : Nat) :
    ∀ (n : Nat) (mem mem₂ : Nat → Nat) (off v : Nat), off ≤ i → i < off + n →
      storeLE mem off v n i = storeLE mem₂ off v n i := by
  intro n
  induction n with
  | zero => intro mem mem₂ off v h1 h2; omega
  | succ k ih =>
    intro mem mem₂ off v h1 h2
    by_cases hc : i = off
    · subst hc
      simp only [storeLE]
      rw [storeLE_outside i k _ (i + 1) (v / 256) (Or.inl (by omega)),
          storeLE_outside i k _ (i + 1) (v / 256) (Or.inl (by omega))]
      simp [updN]
    · simp only [storeLE]
      exact ih _ _ (off + 1) (v / 256) (by omega) (by omega)

/-! ## Per-access bounds discipline (the `MEM_CHECK` contract) -/

/-- The C1 contract for the shared load body: a failed check returns
`BOUNDS` with the state untouched and the frame *not* popped; a passed
check stays within the current page bound, changes no memory, and reads
only the checked range. -/
theorem execLoad_spec (sz : Nat) (conv : Nat → RuneVal) (vm : VMState)
    (regs : Nat → RuneVal) (code : List Nat) (pc dst s1 w off : Nat)
    (hw : code.get? pc = some w)
    (hoff : off = ((regs s1).asU32 + w % 4294967296) % 4294967296) :
    (memCheck vm off sz = false →
      execLoad vm regs code pc dst s1 sz conv = .direct .BOUNDS vm) ∧
    (memCheck vm off sz = true →
      off + sz ≤ vm.memoryPages * PAGE_SIZE ∧
      ∃ regs' mem',
        execLoad vm regs code pc dst s1 sz conv
          = .next {vm with memory := mem'} regs' (pc + 1) ∧
        (∀ i, i < off ∨ off + sz ≤ i → mem' i = vm.memory i) ∧
        (∀ mem₂ : Nat → Nat, (∀ i, off ≤ i → i < off + sz → mem₂ i = vm.memory i) →
          ∃ mem₂',
            execLoad {vm with memory := mem₂} regs code pc dst s1 sz conv
              = .next {vm with memory := mem₂'} regs' (pc + 1) ∧
            (∀ i, off ≤ i → i < off + sz → mem₂' i = mem' i) ∧
            (∀ i, i < off ∨ off + sz ≤ i → mem₂' i = mem₂ i))) := by
  subst hoff
  constructor
  · intro hfail
    simp only [execLoad, hw]
    rw [hfail, if_neg (by decide)]
  · intro hpass
    have hb := hpass
    simp only [memCheck, Bool.and_eq_true, decide_eq_true_eq] at hb
    refine ⟨hb.2, upd regs dst (conv (readLE vm.memory (((regs s1).asU32 + w % 4294967296) % 4294967296) sz)), vm.memory, ?_, ?_, ?_⟩
    · simp only [execLoad, hw]
      rw [if_pos hpass]
    · intro i _; rfl
    · intro mem₂ hagree
      refine ⟨mem₂, ?_, ?_, ?_⟩
      · have hpass₂ : memCheck {vm with memory := mem₂}
            (((regs s1).asU32 + w % 4294967296) % 4294967296) sz = true := hpass
        simp only [execLoad, hw]
        rw [if_pos hpass₂, readLE_congr vm.memory mem₂ sz _ hagree]
      · intro i h1 h2; exact hagree i h1 h2
      · intro i _; rfl

/-- The C1 contract for the shared store body. -/
theorem execStore_spec (sz val : Nat) (vm : VMState)
    (regs : Nat → RuneVal) (code : List Nat) (pc s1 w off : Nat)
    (hw : code.get? pc = some w)
    (hoff : off = ((regs s1).asU32 + w % 4294967296) % 4294967296) :
    (memCheck vm off sz = false →
      execStore vm regs code pc s1 sz val = .direct .BOUNDS vm) ∧
    (memCheck vm off sz = true →
      off + sz ≤ vm.memoryPages * PAGE_SIZE ∧
      ∃ regs' mem',
        execStore vm regs code pc s1 sz val
          = .next {vm with memory := mem'} regs' (pc + 1) ∧
        (∀ i, i < off ∨ off + sz ≤ i → mem' i = vm.memory i) ∧
        (∀ mem₂ : Nat → Nat, (∀ i, off ≤ i → i < off + sz → mem₂ i = vm.memory i) →
          ∃ mem₂',
            execStore {vm with memory := mem₂} regs code pc s1 sz val
              = .next {vm with memory := mem₂'} regs' (pc + 1) ∧
            (∀ i, off ≤ i → i < off + sz → mem₂' i = mem' i) ∧
            (∀ i, i < off ∨ off + sz ≤ i → mem₂' i = mem₂ i))) := by
  subst hoff
  constructor
  · intro hfail
    simp only [execStore, hw]
    rw [hfail, if_neg (by decide)]
  · intro hpass
    have hb := hpass
    simp only [memCheck, Bool.and_eq_true, decide_eq_true_eq] at hb
    refine ⟨hb.2, regs, storeLE vm.memory (((regs s1).asU32 + w % 4294967296) % 4294967296) val sz, ?_, ?_, ?_⟩
    · simp only [execStore, hw]
      rw [if_pos hpass]
    · intro i hi; exact storeLE_outside i sz vm.memory _ val hi
    · intro mem₂ hagree
      refine ⟨storeLE mem₂ (((regs s1).asU32 + w % 4294967296) % 4294967296) val sz, ?_, ?_, ?_⟩
      · have hpass₂ : memCheck {vm with memory := mem₂}
            (((regs s1).asU32 + w % 4294967296) % 4294967296) sz = true := hpass
        simp only [execStore, hw]
        rw [if_pos hpass₂]
      · intro i h1 h2; exact storeLE_indep i sz mem₂ vm.memory _ val h1 h2
      · intro i hi; exact storeLE_outside i sz mem₂ _ val hi

/-- C1.  Every linear-memory access of the interpreter — the plain
loads/stores (`LOAD*`, `LOADF*`, `STORE*`, `STOREF*`), `MEM_COPY` and
`MEM_FILL` — obeys the bounds discipline: (a) when the effective range
`[off, off+len)` fails `off + len ≤ memory_pages * 65536` (or no memory
is allocated) the instruction aborts with `BOUNDS` and the state is
untouched; (b) when it passes, the range lies within the current bound,
no byte outside the written range changes, and the instruction's result
depends only on the bytes of the checked read range — so no byte outside
the current linear-memory range is read or written. -/
theorem c1_mem_access_bounds :
    (∀ (op : Opcode) (st : Bool) (sz : Nat), memOpInfo op = some (st, sz) →
      ∀ (vm : VMState) (regs : Nat → RuneVal) (code : List Nat) (pc dst s1 s2 w off : Nat),
        code.get? pc = some w →
        off = ((regs s1).asU32 + w % 4294967296) % 4294967296 →
        (memCheck vm off sz = false →
          execOp op vm regs code pc dst s1 s2 = .direct .BOUNDS vm) ∧
        (memCheck vm off sz = true →
          off + sz ≤ vm.memoryPages * PAGE_SIZE ∧
          ∃ regs' mem',
            execOp op vm regs code pc dst s1 s2
              = .next {vm with memory := mem'} regs' (pc + 1) ∧
            (∀ i, i < off ∨ off + sz ≤ i → mem' i = vm.memory i) ∧
            (∀ mem₂ : Nat → Nat, (∀ i, off ≤ i → i < off + sz → mem₂ i = vm.memory i) →
              ∃ mem₂',
                execOp op {vm with memory := mem₂} regs code pc dst s1 s2
                  = .next {vm with memory := mem₂'} regs' (pc + 1) ∧
                (∀ i, off ≤ i → i < off + sz → mem₂' i = mem' i) ∧
                (∀ i, i < off ∨ off + sz ≤ i → mem₂' i = mem₂ i))))
    ∧ (∀ (vm : VMState) (regs : Nat → RuneVal) (code : List Nat) (pc dst s1 s2 : Nat),
        (memCheck vm (regs dst).asU32 (regs s2).asU32 = false ∨
            memCheck vm (regs s1).asU32 (regs s2).asU32 = false →
          execOp .MEM_COPY vm regs code pc dst s1 s2 = .direct .BOUNDS vm) ∧
        (memCheck vm (regs dst).asU32 (regs s2).asU32 = true →
          memCheck vm (regs s1).asU32 (regs s2).asU32 = true →
          (regs dst).asU32 + (regs s2).asU32 ≤ vm.memoryPages * PAGE_SIZE ∧
          (regs s1).asU32 + (regs s2).asU32 ≤ vm.memoryPages * PAGE_SIZE ∧
          execOp .MEM_COPY vm regs code pc dst s1 s2
            = .next {vm with memory := memCopy vm.memory (regs dst).asU32 (regs s1).asU32 (regs s2).asU32} regs pc ∧
          (∀ i, i < (regs dst).asU32 ∨ (regs dst).asU32 + (regs s2).asU32 ≤ i →
            memCopy vm.memory (regs dst).asU32 (regs s1).asU32 (regs s2).asU32 i = vm.memory i) ∧
          (∀ mem₂ : Nat → Nat,
            (∀ i, (regs s1).asU32 ≤ i → i < (regs s1).asU32 + (regs s2).asU32 →
              mem₂ i = vm.memory i) →
            execOp .MEM_COPY {vm with memory := mem₂} regs code pc dst s1 s2
              = .next {vm with memory := memCopy mem₂ (regs dst).asU32 (regs s1).asU32 (regs s2).asU32} regs pc ∧
            (∀ i, (regs dst).asU32 ≤ i → i < (regs dst).asU32 + (regs s2).asU32 →
              memCopy mem₂ (regs dst).asU32 (regs s1).asU32 (regs s2).asU32 i
                = memCopy vm.memory (regs dst).asU32 (regs s1).asU32 (regs s2).asU32 i))))
    ∧ (∀ (vm : VMState) (regs : Nat → RuneVal) (code : List Nat) (pc dst s1 s2 : Nat),
        (memCheck vm (regs dst).asU32 (regs s2).asU32 = false →
          execOp .MEM_FILL vm regs code pc dst s1 s2 = .direct .BOUNDS vm) ∧
        (memCheck vm (regs dst).asU32 (regs s2).asU32 = true →
          (regs dst).asU32 + (regs s2).asU32 ≤ vm.memoryPages * PAGE_SIZE ∧
          execOp .MEM_FILL vm regs code pc dst s1 s2
            = .next {vm with memory := memFill vm.memory (regs dst).asU32 (regs s1).asU32 (regs s2).asU32} regs pc ∧
          (∀ i, i < (regs dst).asU32 ∨ (regs dst).asU32 + (regs s2).asU32 ≤ i →
            memFill vm.memory (regs dst).asU32 (regs s1).asU32 (regs s2).asU32 i = vm.memory i) ∧
          (∀ mem₂ : Nat → Nat,
            execOp .MEM_FILL {vm with memory := mem₂} regs code pc dst s1 s2
              = .next {vm with memory := memFill mem₂ (regs dst).asU32 (regs s1).asU32 (regs s2).asU32} regs pc ∧
            (∀ i, (regs dst).asU32 ≤ i → i < (regs dst).asU32 + (regs s2).asU32 →
              memFill mem₂ (regs dst).asU32 (regs s1).asU32 (regs s2).asU32 i
                = memFill vm.memory (regs dst).asU32 (regs s1).asU32 (regs s2).asU32 i)))) := by
  refine ⟨?_, ?_, ?_⟩
  · intro op st sz h vm regs code pc dst s1 s2 w off hw hoff
    cases op <;> try exact Option.noConfusion h
    case LOAD8 =>
      injection h with h'; injection h' with h1 h2; subst h1; subst h2
      exact execLoad_spec 1 (fun v => RuneVal.vI32 v) vm regs code pc dst s1 w off hw hoff
    case LOAD8S =>
      injection h with h'; injection h' with h1 h2; subst h1; subst h2
      exact execLoad_spec 1 (fun v => RuneVal.vI32 (sext32 8 v)) vm regs code pc dst s1 w off hw hoff
    case LOAD16 =>
      injection h with h'; injection h' with h1 h2; subst h1; subst h2
      exact execLoad_spec 2 (fun v => RuneVal.vI32 v) vm regs code pc dst s1 w off hw hoff
    case LOAD16S =>
      injection h with h'; injection h' with h1 h2; subst h1; subst h2
      exact execLoad_spec 2 (fun v => RuneVal.vI32 (sext32 16 v)) vm regs code pc dst s1 w off hw hoff
    case LOAD32 =>
      injection h with h'; injection h' with h1 h2; subst h1; subst h2
      exact execLoad_spec 4 (fun v => RuneVal.vI32 v) vm regs code pc dst s1 w off hw hoff
    case LOAD64 =>
      injection h with h'; injection h' with h1 h2; subst h1; subst h2
      exact execLoad_spec 8 (fun v => RuneVal.vI64 v) vm regs code pc dst s1 w off hw hoff
    case LOADF32 =>
      injection h with h'; injection h' with h1 h2; subst h1; subst h2
      exact execLoad_spec 4 (fun v => RuneVal.vF32 v) vm regs code pc dst s1 w off hw hoff
    case LOADF64 =>
      injection h with h'; injection h' with h1 h2; subst h1; subst h2
      exact execLoad_spec 8 (fun v => RuneVal.vF64 v) vm regs code pc dst s1 w off hw hoff
    case STORE8 =>
      injection h with h'; injection h' with h1 h2; subst h1; subst h2
      exact execStore_spec 1 (regs dst).asU32 vm regs code pc s1 w off hw hoff
    case STORE16 =>
      injection h with h'; injection h' with h1 h2; subst h1; subst h2
      exact execStore_spec 2 (regs dst).asU32 vm regs code pc s1 w off hw hoff
    case STORE32 =>
      injection h with h'; injection h' with h1 h2; subst h1; subst h2
      exact execStore_spec 4 (regs dst).asU32 vm regs code pc s1 w off hw hoff
    case STORE64 =>
      injection h with h'; injection h' with h1 h2; subst h1; subst h2
      exact execStore_spec 8 (regs dst).asU64 vm regs code pc s1 w off hw hoff
    case STOREF32 =>
      injection h with h'; injection h' with h1 h2; subst h1; subst h2
      exact execStore_spec 4 (regs dst).asU32 vm regs code pc s1 w off hw hoff
    case STOREF64 =>
      injection h with h'; injection h' with h1 h2; subst h1; subst h2
      exact execStore_spec 8 (regs dst).asU64 vm regs code pc s1 w off hw hoff
  · intro vm regs code pc dst s1 s2
    constructor
    · intro hfail
      simp only [execOp]
      rcases hfail with h | h
      · rw [h, if_pos rfl]
      · by_cases h1 : memCheck vm (regs dst).asU32 (regs s2).asU32 = false
        · rw [h1, if_pos rfl]
        · rw [if_neg h1, h, if_pos rfl]
    · intro h1 h2
      have hb1 := h1
      simp only [memCheck, Bool.and_eq_true, decide_eq_true_eq] at hb1
      have hb2 := h2
      simp only [memCheck, Bool.and_eq_true, decide_eq_true_eq] at hb2
      refine ⟨hb1.2, hb2.2, ?_, ?_, ?_⟩
      · simp only [execOp]
        rw [if_neg (by rw [h1]; decide), if_neg (by rw [h2]; decide)]
      · intro i hi
        simp only [memCopy]
        rw [if_neg (by omega)]
      · intro mem₂ hagree
        constructor
        · have h1₂ : memCheck {vm with memory := mem₂} (regs dst).asU32 (regs s2).asU32
              = true := h1
          have h2₂ : memCheck {vm with memory := mem₂} (regs s1).asU32 (regs s2).asU32
              = true := h2
          simp only [execOp]
          rw [if_neg (by rw [h1₂]; decide), if_neg (by rw [h2₂]; decide)]
        · intro i hi1 hi2
          simp only [memCopy]
          rw [if_pos (by omega), if_pos (by omega)]
          exact hagree _ (by omega) (by omega)
  · intro vm regs code pc dst s1 s2
    constructor
    · intro hfail
      simp only [execOp]
      rw [hfail, if_neg (by decide)]
    · intro h1
      have hb1 := h1
      simp only [memCheck, Bool.and_eq_true, decide_eq_true_eq] at hb1
      refine ⟨hb1.2, ?_, ?_, ?_⟩
      · simp only [execOp]
        rw [if_pos h1]
      · intro i hi
        simp only [memFill]
        rw [if_neg (by omega)]
      · intro mem₂
        constructor
        · have h1₂ : memCheck {vm with memory := mem₂} (regs dst).asU32 (regs s2).asU32
              = true := h1
          simp only [execOp]
          rw [if_pos h1₂]
        · intro i hi1 hi2
          simp only [memFill]
          rw [if_pos (by omega), if_pos (by omega)]

/-- Witness for C1: a concrete out-of-bounds `LOAD32` (offset 70000 on a
one-page memory) hits the failed-check branch of the contract and aborts
with `BOUNDS`, leaving the state untouched. -/
theorem c1_mem_access_bounds_witness :
    memOpInfo .LOAD32 = some (false, 4) ∧
    ([(70000 : Nat)].get? 0 = some 70000) ∧
    memCheck vmC8 70000 4 = false ∧
    execOp .LOAD32 vmC8 (fun _ => zeroVal) [70000] 0 0 0 0 = .direct .BOUNDS vmC8 :=
  ⟨rfl, rfl, by decide,
    (c1_mem_access_bounds.1 .LOAD32 false 4 rfl vmC8 (fun _ => zeroVal) [70000]
      0 0 0 0 70000 70000 rfl (by decide)).1 (by decide)⟩

/-! ## The `initialized` flag is never written by the interpreter -/

/-- No dispatched instruction changes `vm->initialized`. -/
theorem execOp_initialized (o : Opcode) (vm : VMState) (regs : Nat → RuneVal)
    (code : List Nat) (pc dst s1 s2 : Nat) :
    (execOp o vm regs code pc dst s1 s2).keepsInit vm.initialized := by
  cases o <;> simp only [execOp, execLoad, execStore] <;>
    (repeat' split) <;> simp_all [StepAct.keepsInit]

/-- The fuel tick does not touch the initialized flag. -/
theorem fuelTick_initialized (vm : VMState) : (fuelTick vm).initialized = vm.initialized := by
  simp only [fuelTick]
  split <;> rfl

/-- The frame pop does not touch the initialized flag. -/
theorem popFrame_initialized (vm : VMState) : (popFrame vm).initialized = vm.initialized := rfl

/-- Neither `vm_exec` nor its dispatch loop ever changes
`vm->initialized` on a normal return. -/
theorem execGo_initialized : ∀ fuel : Nat,
    (∀ vm fi args e r vm', vmExecGo fuel vm fi args = .norm e r vm' →
      vm'.initialized = vm.initialized)
    ∧ (∀ vm regs code pc e r vm', loopGo fuel vm regs code pc = .norm e r vm' →
      vm'.initialized = vm.initialized) := by
  intro fuel
  induction fuel with
  | zero =>
    constructor
    · intro vm fi args e r vm' h; exact absurd h (by simp [vmExecGo])
    · intro vm regs code pc e r vm' h; exact absurd h (by simp [loopGo])
  | succ n ih =>
    constructor
    · intro vm fi args e r vm' h
      simp only [vmExecGo] at h
      split at h
      · injection h with _ _ h3; rw [← h3]
      · split at h
        · injection h with _ _ h3; rw [← h3]
        · split at h
          · exact absurd h (by simp)
          · split at h
            · split at h
              · injection h with _ _ h3; rw [← h3]
              · injection h with _ _ h3; rw [← h3]
            · have h4 := ih.2 _ _ _ _ _ _ _ h
              exact h4
    · intro vm regs code pc e r vm' h
      simp only [loopGo] at h
      split at h
      · -- pc < code_words: tick, decode, dispatch
        split at h
        · -- fuel exceeded: direct return, no pop
          injection h with _ _ h3
          rw [← h3, fuelTick_initialized]
        · split at h
          · -- unknown opcode: BADOPCODE via done
            injection h with _ _ h3
            rw [← h3, popFrame_initialized, fuelTick_initialized]
          · rename_i o heq
            have hstep := execOp_initialized o (fuelTick vm) regs code (pc + 1)
              (code.getD pc 0 / 256 % 256) (code.getD pc 0 / 65536 % 256)
              (code.getD pc 0 / 16777216 % 256)
            split at h
            · rename_i vm2 regs2 pc2 hact
              rw [hact] at hstep
              simp only [StepAct.keepsInit] at hstep
              have h4 := ih.2 _ _ _ _ _ _ _ h
              rw [h4, hstep, fuelTick_initialized]
            · rename_i e0 r0 vm2 hact
              rw [hact] at hstep
              simp only [StepAct.keepsInit] at hstep
              injection h with _ _ h3
              rw [← h3, popFrame_initialized, hstep, fuelTick_initialized]
            · rename_i e0 vm2 hact
              rw [hact] at hstep
              simp only [StepAct.keepsInit] at hstep
              injection h with _ _ h3
              rw [← h3, hstep, fuelTick_initialized]
            · exact absurd h (by simp)
            · rename_i vm2 regs2 pc2 dstc fic cargs hact
              rw [hact] at hstep
              simp only [StepAct.keepsInit] at hstep
              split at h
              · rename_i e0 r0 vm3 hexec
                have h5 := ih.1 _ _ _ _ _ _ hexec
                split at h
                · have h4 := ih.2 _ _ _ _ _ _ _ h
                  rw [h4, h5, hstep, fuelTick_initialized]
                · injection h with _ _ h3
                  rw [← h3, popFrame_initialized, h5, hstep, fuelTick_initialized]
              · rename_i hne
                exact absurd h (hne _ _ _)
      · -- fell off the end: implicit return via done
        injection h with _ _ h3
        rw [← h3, popFrame_initialized]

/-- Applying data segments never touches the initialized flag. -/
theorem applyDataSegs_initialized :
    ∀ (segs : List RuneDataSeg) (vm : VMState) (e : RuneErr) (r : RuneVal) (vm' : VMState),
      applyDataSegs vm segs = .norm e r vm' → vm'.initialized = vm.initialized := by
  intro segs
  induction segs with
  | nil => intro vm e r vm' h; injection h with _ _ h3; rw [← h3]
  | cons seg rest ih =>
    intro vm e r vm' h
    simp only [applyDataSegs] at h
    split at h
    · injection h with _ _ h3; rw [← h3]
    · split at h
      · exact absurd h (by simp)
      · have h4 := ih _ _ _ _ h
        exact h4

/-- The pre-`initialized` phases of `rune_vm_init` never touch the
initialized flag. -/
theorem runeVmInitPre_initialized (vm : VMState) (e : RuneErr) (r : RuneVal) (vm₁ : VMState)
    (h : runeVmInitPre vm = .norm e r vm₁) : vm₁.initialized = vm.initialized := by
  simp only [runeVmInitPre] at h
  split at h
  · injection h with _ _ h3; rw [← h3]
  · split at h
    · rename_i r0 vm2 heq
      injection h with _ _ h3
      rw [← h3]
      show vm2.initialized = vm.initialized
      split at heq
      · split at heq <;> split at heq <;>
          first
            | (injection heq with he _ _; exact absurd he (by simp))
            | (have h4 := applyDataSegs_initialized _ _ _ _ _ heq; exact h4)
      · injection heq with _ _ h5; rw [← h5]
    · split at h
      · split at h <;> split at h <;>
          first
            | (injection h with _ _ h3; rw [← h3])
            | (have h4 := applyDataSegs_initialized _ _ _ _ _ h; exact h4)
      · injection h with _ _ h3; rw [← h3]

/-- C4 (amended).  If `rune_vm_init` fails in a phase before `_init`
runs (unresolved import, memory-limit OOM, data-segment bounds), the
returned VM keeps its previous `initialized` flag (false for a fresh
VM).  But once those phases succeed the VM is marked initialized
*before* `_init` runs, and an error raised while running `_init` leaves
`initialized == true`. -/
theorem c4_init_failure_initialized :
    (∀ (vm : VMState) (e : RuneErr) (r : RuneVal) (vm₁ : VMState),
      runeVmInitPre vm = .norm e r vm₁ → vm₁.initialized = vm.initialized)
    ∧ (∀ (fuel : Nat) (vm : VMState) (r₁ : RuneVal) (vm₁ : VMState)
        (e : RuneErr) (r : RuneVal) (vm' : VMState),
        runeVmInitPre vm = .norm .OK r₁ vm₁ →
        runeVmInit fuel vm = .norm e r vm' → vm'.initialized = true) := by
  constructor
  · exact runeVmInitPre_initialized
  · intro fuel vm r₁ vm₁ e r vm' hpre hinit
    simp only [runeVmInit, hpre] at hinit
    split at hinit
    · split at hinit
      · rename_i e0 r0 vm3 hexec
        have h5 := (execGo_initialized fuel).1 _ _ _ _ _ _ hexec
        split at hinit <;> (injection hinit with _ _ h3; rw [← h3]; exact h5)
      · rename_i hne
        exact absurd hinit (hne _ _ _)
    · injection hinit with _ _ h3
      rw [← h3]

/-- Witness for C4 (amended): the `modC4` run — `_init` traps, the
pre-phases preserved `initialized = false`, and the failed init returns
with `initialized = true`. -/
theorem c4_init_failure_initialized_witness :
    ∃ (r₁ : RuneVal) (vm₁ : VMState) (e : RuneErr) (r : RuneVal) (vm' : VMState),
      runeVmInitPre (runeVmNew modC4 none) = .norm .OK r₁ vm₁ ∧
      runeVmInit 10 (runeVmNew modC4 none) = .norm e r vm' ∧
      vm₁.initialized = (runeVmNew modC4 none).initialized ∧
      vm'.initialized = true :=
  ⟨_, _, _, _, _, rfl, rfl,
    c4_init_failure_initialized.1 (runeVmNew modC4 none) .OK _ _ rfl,
    c4_init_failure_initialized.2 10 (runeVmNew modC4 none) _ _ _ _ _ rfl rfl⟩

/-- C4 counterexample: for `modC4` (whose `_init` body is a single
`TRAP`), `rune_vm_init` returns the `TRAP` error code yet leaves the VM
with `initialized == true` — not the uninitialized state the claim
demands for every error. -/
theorem c4_counterexample_init_trap :
    (runeVmNew modC4 none).initialized = false ∧
    (runeVmInit 10 (runeVmNew modC4 none)).errOf = some .TRAP ∧
    (runeVmInit 10 (runeVmNew modC4 none)).initializedOf = some true := by
  refine ⟨rfl, by decide, by decide⟩

/-- C2.  `OP_MEM_GROW` with `memory_pages = memory_max = 1` and
`R[s1] = -1` (request of 4294967295 pages): the wrapped page count
`(1 + 2^32 - 1) mod 2^32 = 0` passes the `new_pages > memory_max` test,
so the code takes the grow branch and its `memset` runs
`(2^32 - 2^16) mod 2^32` bytes past the 64-KiB allocation — undefined
behaviour, instead of the claim's "grow by exactly k or return -1
unchanged" (and `memory_pages` would then *shrink* from 1 to 0). -/
theorem c2_mem_grow_wrap_ub :
    vmC2.memoryPages = 1 ∧ vmC2.memoryMax = 1 ∧
    (RuneVal.vI32 4294967295).asU32 = 4294967295 ∧
    execOp .MEM_GROW vmC2 (fun _ => .vI32 4294967295) [] 0 0 1 0
      = .undef .growMemsetOOB :=
  ⟨rfl, rfl, rfl, rfl⟩

/-- C3.  `OP_ARG` with `dst = 0` (slot), `s1 = 1` (register), `s2 = 0`:
besides staging `R[1] = 9` into slot 0 as the claim says, the stray
guarded pre-write (`if (s1 < RUNE_MAX_PARAMS) vm->arg_buf[s1] = ...`)
*also* overwrites argument slot 1 — previously `i32 7` — with
`R[0] = 5`.  The claim's "changes no other argument slot" is false. -/
theorem c3_arg_stray_write :
    vmC3.argBuf 1 = .vI32 7 ∧ regsC3 0 = .vI32 5 ∧ regsC3 1 = .vI32 9 ∧
    ∃ vm', execOp .ARG vmC3 regsC3 [] 0 0 1 0 = .next vm' regsC3 0 ∧
      vm'.argBuf 0 = .vI32 9 ∧ vm'.argBuf 1 = .vI32 5 ∧ vm'.argCount = 2 :=
  ⟨rfl, rfl, rfl, _, rfl, rfl, rfl, rfl⟩

/-- C6.  `OP_DIV32` with `R[s1] = INT32_MIN` and `R[s2] = -1` evaluates
the C expression `INT32_MIN / -1`, which is undefined behaviour (the
quotient `2^31` is unrepresentable; mainstream targets fault), instead
of wrapping to `INT32_MIN` as the claim requires. -/
theorem c6_div32_intmin_ub :
    toS32 (regsC6 0).asU32 = -2147483648 ∧ toS32 (regsC6 1).asU32 = -1 ∧
    execOp .DIV32 vm0 regsC6 [] 0 0 0 1 = .undef .sdivOverflow :=
  ⟨by decide, by decide, rfl⟩

/-- C8.  Calling export `f` of `modC8` (a `LOAD32` at offset 70000 with
one page of memory) returns `BOUNDS`, but `frame_count` is 1 afterwards
— the `MEM_CHECK` macro returns from inside the dispatch loop without
executing the frame pop at `done:`, so the faulting frame leaks. -/
theorem c8_frame_leak_on_bounds :
    vmC8.frameCount = 0 ∧
    (runeVmCall 10 vmC8 nmF []).errOf = some .BOUNDS ∧
    (runeVmCall 10 vmC8 nmF []).framesOf = some 1 :=
  ⟨rfl, by decide, by decide⟩

/-- C9.  `OP_CALL` with immediate function index 5 on a module with a
single function: no bounds check precedes `vm->mod->funcs[func_idx]`, no
error code is returned, and the total embedding's out-of-range branch
(`CUndef.funcIdxOOB`) is reached from guest bytecode. -/
theorem c9_call_unchecked_func_index :
    vmC9.mod.funcs.length = 1 ∧
    (runeVmCall 10 vmC9 nmG []).undefOf = some (.funcIdxOOB 5) ∧
    (runeVmCall 10 vmC9 nmG []).errOf = none :=
  ⟨rfl, by decide, by decide⟩

/-- C7 counterexample.  With `hostF1` (returns i32 1) registered first
and `hostF2` (returns i32 2) registered second for the same import
`m::n`, the guest `CALL_HOST` dispatches to `hostF1`: the *first*
registration wins, not the last one the claim picks. -/
theorem c7_counterexample_last_wins :
    hostF1 [] = (.OK, .vI32 1) ∧ hostF2 [] = (.OK, .vI32 2) ∧
    (runeVmCall 10 vmC7 nmGo []).errOf = some .OK ∧
    (runeVmCall 10 vmC7 nmGo []).retOf = some (.vI32 1) :=
  ⟨rfl, rfl, by decide, by decide⟩

/-- C7 (amended).  When the same `(module, name)` pair is registered
more than once before init, guest calls dispatch to the *first*
matching entry of the host table (`vm_resolve_host` scans in
registration order and returns the first hit). -/
theorem c7_first_registration_wins (vm : VMState) (m n : List Nat) (f g : HostFn)
    (ii : Nat) (imp : RuneImport)
    (hinit : vm.initialized = false)
    (himp : vm.mod.imports.get? ii = some imp)
    (hm : cstrEq m imp.module = true) (hn : cstrEq n imp.name = true)
    (hnone : vm.hostFns.find?
      (fun e => cstrEq e.module imp.module && cstrEq e.name imp.name) = none) :
    vmResolveHost ((runeVmRegister ((runeVmRegister vm m n f).2) m n g).2) ii
      = some ⟨m, n, f⟩ := by
  have h1 : (runeVmRegister vm m n f).2 = {vm with hostFns := vm.hostFns ++ [⟨m, n, f⟩]} := by
    simp [runeVmRegister, hinit]
  have h2 : (runeVmRegister {vm with hostFns := vm.hostFns ++ [⟨m, n, f⟩]} m n g).2
      = {vm with hostFns := (vm.hostFns ++ [⟨m, n, f⟩]) ++ [⟨m, n, g⟩]} := by
    simp [runeVmRegister, hinit]
  rw [h1, h2]
  simp only [vmResolveHost, himp]
  rw [List.find?_append, List.find?_append, hnone]
  simp [List.find?, hm, hn]

/-- Witness for C7 (amended): the `modC7` registrations — resolving the
first import after registering `hostF1` then `hostF2` yields the
`hostF1` entry. -/
theorem c7_first_registration_wins_witness :
    vmResolveHost ((runeVmRegister ((runeVmRegister (runeVmNew modC7 none)
        [109] [110] hostF1).2) [109] [110] hostF2).2) 0
      = some ⟨[109], [110], hostF1⟩ :=
  c7_first_registration_wins (runeVmNew modC7 none) [109] [110] hostF1 hostF2 0
    ⟨[109], [110], 0⟩ rfl rfl (by decide) (by decide) rfl

/-- C10.  `OP_STGLOBAL` writes the VM global at an in-range index
unconditionally — in particular when the module declared that global
immutable (`mutFlag = false`): the mutability flag parsed from the
GLOBAL section is never consulted during execution. -/
theorem c10_stglobal_ignores_mutability (vm : VMState) (regs : Nat → RuneVal)
    (code : List Nat) (pc dst s1 s2 w : Nat)
    (hw : code.get? pc = some w)
    (hgi : w % 4294967296 < vm.mod.globals.length)
    (hmut : (vm.mod.globals.getD (w % 4294967296) dGlob).mutFlag = false) :
    execOp .STGLOBAL vm regs code pc dst s1 s2
      = .next {vm with globals := vm.globals.set (w % 4294967296) (regs s1)} regs (pc + 1) := by
  simp only [execOp, hw]
  rw [if_neg (by omega)]

/-- Witness for C10: storing `i32 42` to the immutable global 0 of
`modC10` succeeds. -/
theorem c10_stglobal_ignores_mutability_witness :
    (vmC10.mod.globals.getD 0 dGlob).mutFlag = false ∧
    execOp .STGLOBAL vmC10 (fun _ => .vI32 42) [0] 0 0 1 0
      = .next {vmC10 with globals := vmC10.globals.set 0 (.vI32 42)}
          (fun _ => .vI32 42) 1 :=
  ⟨rfl, c10_stglobal_ignores_mutability vmC10 (fun _ => .vI32 42) [0] 0 0 1 0 0
    rfl (by decide) rfl⟩

/-- C5 counterexample.  `exC5bytes` — a CRC-valid container with **no**
TYPE section whose function declares `type_idx = 7`, whose import
declares `type_idx = 5`, and whose FUNC-kind export references index 9
of a 2-entry function table — is *accepted* by `rune_module_load`
instead of being rejected with `BADMODULE`. -/
theorem c5_counterexample_unchecked_indices :
    (runeModuleLoad exC5bytes).isOk = true ∧
    ((runeModuleLoad exC5bytes).modOf.map (fun m =>
      (m.types.length, (m.funcs.getD 1 dFn).typeIdx, (m.imports.getD 0 dImp).typeIdx,
       (m.exports.getD 0 dExp).kind, (m.exports.getD 0 dExp).idx, m.funcs.length)))
      = some (0, 7, 5, EXPORT_FUNC, 9, 2) :=
  ⟨by decide, by decide⟩

/-- C5 (amended).  Load-time validation is structural only (bounds,
caps, CRC, word alignment): there are byte sequences that
`rune_module_load` accepts whose function and import type indices do
not reference any type-section entry, and whose FUNC export index is
not a valid function index. -/
theorem c5_load_validation_structural_only :
    ∃ raw : List Nat,
      (runeModuleLoad raw).isOk = true ∧
      ((runeModuleLoad raw).modOf.map (fun m =>
        decide (m.types.length ≤ (m.funcs.getD 1 dFn).typeIdx) &&
        decide (m.types.length ≤ (m.imports.getD 0 dImp).typeIdx) &&
        decide (m.funcs.length ≤ (m.exports.getD 0 dExp).idx) &&
        decide ((m.exports.getD 0 dExp).kind = EXPORT_FUNC))) = some true :=
  ⟨exC5bytes, by decide, by decide⟩

end Rune
